import Mathlib

/-
Verification of the rusty-epanet wrapper (a typed access layer over the
EPANET hydraulic simulation engine).

The wrapper code under src/ is embedded shallowly: each Rust method that
wraps an FFI call becomes a Lean function over an oracle describing the
engine responses (the EPANET C engine itself is not part of the
repository).  Rust Result values become Except / Outcome values, a Rust
panic (expect / unwrap on a failed enum decode) becomes the Outcome.panicked
constructor, and C out-parameters become components of the oracle response.
Machine floating point values (f64) are never computed with by the wrapper,
only transported, so they are carried as Int here.
-/

set_option autoImplicit false

namespace Epanet

/-- Model of src/epanet_error.rs EPANETError: numeric code, static message
and optional context string. -/
structure EPANETError where
  code : Int
  message : String
  context : Option String
deriving Repr, DecidableEq

/-- Outcome of running a piece of wrapper code: a successful value, an
EPANET error propagated through Result, or a Rust panic raised by
expect / unwrap. -/
inductive Outcome (α : Type) where
  | ok (a : α)
  | err (e : EPANETError)
  | panicked (msg : String)
deriving Repr, DecidableEq

/-- Modelled from the spec: the error_messages module (get_error_message)
referenced by src/epanet_error.rs is not under src/.  Section 7 of the
spec requires a static table mapping each specific, stable error code to a
static message, with a generic message only for genuinely unrecognized
codes.  The entries below follow the EPANET error codes exercised by the
repository tests (204, 252, 261) together with the standard engine codes. -/
def error_message_table : List (Int × String) :=
  [(101, "insufficient memory available"),
   (102, "no network data available"),
   (103, "hydraulics not initialized"),
   (200, "one or more errors in input file"),
   (201, "syntax error"),
   (202, "function call contains invalid numeric value"),
   (203, "function call refers to undefined node"),
   (204, "function call refers to undefined link"),
   (205, "function call refers to undefined time pattern"),
   (207, "attempt made to control a check valve"),
   (223, "not enough nodes in network"),
   (224, "no tanks or reservoirs in network"),
   (240, "function call refers to nonexistent water quality source"),
   (241, "function call refers to nonexistent control"),
   (250, "function call contains invalid format"),
   (251, "function call contains invalid parameter code"),
   (252, "function call contains an invalid ID name"),
   (253, "function call refers to nonexistent demand category"),
   (257, "function call refers to nonexistent rule"),
   (258, "function call refers to nonexistent rule clause"),
   (259, "attempt to delete a node that still has links connected to it"),
   (260, "attempt to delete node assigned as a Trace Node"),
   (261, "attempt to delete a node or link contained in a control")]

/-- Generic fallback message used only when a code is not in the table. -/
def generic_error_message : String := "unknown error"

/-- Model of get_error_message: static table lookup with a generic
fallback (see the doc comment of error_message_table). -/
def get_error_message (code : Int) : String :=
  match error_message_table.lookup code with
  | some m => m
  | none => generic_error_message

/-- Model of the From i32 conversion in src/epanet_error.rs (lines 54-62):
wraps a raw engine code together with its table message and no context. -/
def EPANETError.fromCode (code : Int) : EPANETError :=
  { code := code, message := get_error_message code, context := none }

/-- Model of EPANETError.with_context (src/epanet_error.rs lines 47-50). -/
def EPANETError.with_context (e : EPANETError) (context : String) : EPANETError :=
  { e with context := some context }

/-- Model of check_error (src/epanet_error.rs lines 68-74): code 0 is Ok,
any other code becomes an EPANETError via the From conversion. -/
def check_error (code : Int) : Except EPANETError Unit :=
  if code = 0 then Except.ok () else Except.error (EPANETError.fromCode code)

/-- Model of check_error_with_context (src/epanet_error.rs lines 77-86). -/
def check_error_with_context (code : Int) (context : String) :
    Except EPANETError Unit :=
  if code = 0 then Except.ok ()
  else Except.error ((EPANETError.fromCode code).with_context context)

/-! Enumerations decoded from engine discriminants.  LogicalOperator with
discriminants IF = 1, AND = 2, OR = 3 is declared directly in
src/types/rule.rs.  The other discriminant values are those of the EPANET
header enums that the generated bindings expose (EN_RuleObject,
EN_RuleVariable, EN_RuleOperator, EN_RuleStatus, EN_ControlType); the
bindings are produced by bindgen at build time and are not under src/. -/

/-- Rule premise logical operator (src/types/rule.rs lines 56-63). -/
inductive LogicalOperator where
  | IF
  | AND
  | OR
deriving Repr, DecidableEq

/-- Model of LogicalOperator::from_i32 (enum_from_primitive). -/
def LogicalOperator.from_i32 : Int → Option LogicalOperator
  | 1 => some LogicalOperator.IF
  | 2 => some LogicalOperator.AND
  | 3 => some LogicalOperator.OR
  | _ => none

/-- Rule premise object kind (src/types/rule.rs lines 4-11); discriminants
from EN_RuleObject: EN_R_NODE = 6, EN_R_LINK = 7, EN_R_SYSTEM = 8. -/
inductive RuleObject where
  | Node
  | Link
  | System
deriving Repr, DecidableEq

/-- Model of RuleObject::from_i32. -/
def RuleObject.from_i32 : Int → Option RuleObject
  | 6 => some RuleObject.Node
  | 7 => some RuleObject.Link
  | 8 => some RuleObject.System
  | _ => none

/-- Rule premise variable (src/types/rule.rs lines 13-30); discriminants
from EN_RuleVariable, 0 through 12. -/
inductive RuleVariable where
  | Demand
  | Head
  | Grade
  | Level
  | Pressure
  | Flow
  | Status
  | Setting
  | Power
  | Time
  | ClockTime
  | FillTime
  | DrainTime
deriving Repr, DecidableEq

/-- Model of RuleVariable::from_i32. -/
def RuleVariable.from_i32 : Int → Option RuleVariable
  | 0 => some RuleVariable.Demand
  | 1 => some RuleVariable.Head
  | 2 => some RuleVariable.Grade
  | 3 => some RuleVariable.Level
  | 4 => some RuleVariable.Pressure
  | 5 => some RuleVariable.Flow
  | 6 => some RuleVariable.Status
  | 7 => some RuleVariable.Setting
  | 8 => some RuleVariable.Power
  | 9 => some RuleVariable.Time
  | 10 => some RuleVariable.ClockTime
  | 11 => some RuleVariable.FillTime
  | 12 => some RuleVariable.DrainTime
  | _ => none

/-- Rule premise relational operator (src/types/rule.rs lines 32-46);
discriminants from EN_RuleOperator, 0 through 9. -/
inductive RuleOperator where
  | Eq
  | Ne
  | Le
  | Ge
  | Lt
  | Gt
  | Is
  | Not
  | Below
  | Above
deriving Repr, DecidableEq

/-- Model of RuleOperator::from_i32. -/
def RuleOperator.from_i32 : Int → Option RuleOperator
  | 0 => some RuleOperator.Eq
  | 1 => some RuleOperator.Ne
  | 2 => some RuleOperator.Le
  | 3 => some RuleOperator.Ge
  | 4 => some RuleOperator.Lt
  | 5 => some RuleOperator.Gt
  | 6 => some RuleOperator.Is
  | 7 => some RuleOperator.Not
  | 8 => some RuleOperator.Below
  | 9 => some RuleOperator.Above
  | _ => none

/-- Rule status value (src/types/rule.rs lines 48-55); discriminants from
EN_RuleStatus: EN_R_IS_OPEN = 1, EN_R_IS_CLOSED = 2, EN_R_IS_ACTIVE = 3. -/
inductive RuleStatus where
  | IsOpen
  | IsClosed
  | IsActive
deriving Repr, DecidableEq

/-- Model of RuleStatus::from_i32. -/
def RuleStatus.from_i32 : Int → Option RuleStatus
  | 1 => some RuleStatus.IsOpen
  | 2 => some RuleStatus.IsClosed
  | 3 => some RuleStatus.IsActive
  | _ => none

/-- Simple control type (src/types/control.rs lines 55-67); discriminants
from EN_ControlType: LOWLEVEL = 0, HILEVEL = 1, TIMER = 2, TIMEOFDAY = 3. -/
inductive ControlType where
  | LowLevel
  | HiLevel
  | Timer
  | TimeOfDay
deriving Repr, DecidableEq

/-- Model of ControlType::from_i32. -/
def ControlType.from_i32 : Int → Option ControlType
  | 0 => some ControlType.LowLevel
  | 1 => some ControlType.HiLevel
  | 2 => some ControlType.Timer
  | 3 => some ControlType.TimeOfDay
  | _ => none

/-- Discriminant of a ControlType, as used by the as-i32 casts of
src/impls/control.rs. -/
def ControlType.to_i32 : ControlType → Int
  | ControlType.LowLevel => 0
  | ControlType.HiLevel => 1
  | ControlType.Timer => 2
  | ControlType.TimeOfDay => 3

/-- Model of the Premise struct (src/types/rule.rs lines 75-83).  The Rust
field named variable is called var here because variable is a Lean
keyword; f64 value is carried as Int. -/
structure Premise where
  logical_operator : LogicalOperator
  rule_object : RuleObject
  object_index : Int
  var : RuleVariable
  rule_operator : RuleOperator
  status : Option RuleStatus
  value : Int
deriving Repr, DecidableEq

/-- Model of the ActionClause struct (src/types/rule.rs lines 84-88). -/
structure ActionClause where
  link_index : Int
  status : RuleStatus
  setting : Int
deriving Repr, DecidableEq

/-- Model of the Rule struct (src/types/rule.rs lines 66-73). -/
structure Rule where
  rule_id : String
  premises : List Premise
  then_actions : List ActionClause
  else_actions : Option (List ActionClause)
  priority : Option Int
  enabled : Bool
deriving Repr, DecidableEq

/-- Raw out-parameter block of EN_getpremise.  The Rust caller
zero-initializes locals and passes their addresses; this record is their
contents after the call returns. -/
structure PremiseRaw where
  logop : Int
  object : Int
  obj_index : Int
  var : Int
  relop : Int
  status : Int
  value : Int
deriving Repr, DecidableEq

/-- Zero-initialized out-parameters, exactly as get_premise declares them
(src/impls/rule.rs lines 117-123). -/
def PremiseRaw.zeros : PremiseRaw :=
  { logop := 0, object := 0, obj_index := 0, var := 0, relop := 0,
    status := 0, value := 0 }

/-- Raw out-parameter block of EN_getthenaction / EN_getelseaction. -/
structure ActionRaw where
  link_index : Int
  status : Int
  setting : Int
deriving Repr, DecidableEq

/-- Oracle for the rule-retrieval engine calls: for every call the pair of
the returned error code and the final contents of the out-parameters. -/
structure RuleOracle where
  getruleID : Int → Int × String
  getrule : Int → Int × Int × Int × Int × Int
  getpremise : Int → Int → Int × PremiseRaw
  getthenaction : Int → Int → Int × ActionRaw
  getelseaction : Int → Int → Int × ActionRaw
  getruleenabled : Int → Int × Int

/-- One engine call made during rule retrieval, recorded for the
retrieval-protocol claims. -/
inductive EngineCall where
  | getruleID (rule_index : Int)
  | getrule (rule_index : Int)
  | getpremise (rule_index premise_index : Int)
  | getthenaction (rule_index action_index : Int)
  | getelseaction (rule_index action_index : Int)
  | getruleenabled (rule_index : Int)
deriving Repr, DecidableEq

/-- Computation that threads the list of engine calls made so far and can
end in Ok, Err or a panic, mirroring Rust control flow. -/
def M (α : Type) : Type := List EngineCall → List EngineCall × Outcome α

/-- Sequencing of wrapper code: question-mark propagation of Err and
unwinding of panics. -/
def M.bind {α β : Type} (x : M α) (f : α → M β) : M β := fun log =>
  match x log with
  | (log2, Outcome.ok a) => f a log2
  | (log2, Outcome.err e) => (log2, Outcome.err e)
  | (log2, Outcome.panicked m) => (log2, Outcome.panicked m)

/-- Trivial wrapper computation returning a value with no engine call. -/
def M.pure {α : Type} (a : α) : M α := fun log => (log, Outcome.ok a)

/-- A single engine call: records the call and yields its outcome. -/
def callLogged {α : Type} (c : EngineCall) (res : Outcome α) : M α :=
  fun log => (log ++ [c], res)

/-- Outcome of get_rule_id (src/impls/rule.rs lines 103-115), as a
function of the oracle response. -/
def rule_id_outcome (o : RuleOracle) (rule_index : Int) : Outcome String :=
  if (o.getruleID rule_index).1 = 0 then Outcome.ok (o.getruleID rule_index).2
  else Outcome.err (EPANETError.fromCode (o.getruleID rule_index).1)

/-- Model of get_rule_id: one EN_getruleID call. -/
def get_rule_id (o : RuleOracle) (rule_index : Int) : M String :=
  callLogged (EngineCall.getruleID rule_index) (rule_id_outcome o rule_index)

/-- Outcome of get_premise (src/impls/rule.rs lines 116-162).  Exactly as
in the source, the enum discriminants are decoded with expect BEFORE the
engine result code is examined, and the premise status is decoded with
from_i32(out_status).or(None), which never panics. -/
def premise_outcome (o : RuleOracle) (rule_index premise_index : Int) :
    Outcome Premise :=
  let premise_result := (o.getpremise rule_index premise_index).1
  let raw := (o.getpremise rule_index premise_index).2
  match LogicalOperator.from_i32 raw.logop with
  | none => Outcome.panicked "Invalid logical operator"
  | some logical_operator =>
    match RuleObject.from_i32 raw.object with
    | none => Outcome.panicked "Invalid rule object"
    | some rule_object =>
      match RuleVariable.from_i32 raw.var with
      | none => Outcome.panicked "Invalid rule variable"
      | some v =>
        match RuleOperator.from_i32 raw.relop with
        | none => Outcome.panicked "Invalid rule operator"
        | some rule_operator =>
          let status := (RuleStatus.from_i32 raw.status).or none
          if premise_result = 0 then
            Outcome.ok
              { logical_operator := logical_operator,
                rule_object := rule_object,
                object_index := raw.obj_index,
                var := v,
                rule_operator := rule_operator,
                status := status,
                value := raw.value }
          else Outcome.err (EPANETError.fromCode premise_result)

/-- Model of get_premise: one EN_getpremise call. -/
def get_premise (o : RuleOracle) (rule_index premise_index : Int) :
    M Premise :=
  callLogged (EngineCall.getpremise rule_index premise_index)
    (premise_outcome o rule_index premise_index)

/-- Outcome of get_then_action (src/impls/rule.rs lines 164-187): on code
0 the status discriminant is decoded with expect inside the Ok branch. -/
def then_action_outcome (o : RuleOracle) (rule_index action_index : Int) :
    Outcome ActionClause :=
  let result := (o.getthenaction rule_index action_index).1
  let raw := (o.getthenaction rule_index action_index).2
  if result = 0 then
    match RuleStatus.from_i32 raw.status with
    | none => Outcome.panicked "Invalid rule status"
    | some st =>
      Outcome.ok { link_index := raw.link_index, status := st,
                   setting := raw.setting }
  else Outcome.err (EPANETError.fromCode result)

/-- Model of get_then_action: one EN_getthenaction call. -/
def get_then_action (o : RuleOracle) (rule_index action_index : Int) :
    M ActionClause :=
  callLogged (EngineCall.getthenaction rule_index action_index)
    (then_action_outcome o rule_index action_index)

/-- Outcome of get_else_action (src/impls/rule.rs lines 189-212),
identical in shape to the then-action accessor. -/
def else_action_outcome (o : RuleOracle) (rule_index action_index : Int) :
    Outcome ActionClause :=
  let result := (o.getelseaction rule_index action_index).1
  let raw := (o.getelseaction rule_index action_index).2
  if result = 0 then
    match RuleStatus.from_i32 raw.status with
    | none => Outcome.panicked "Invalid rule status"
    | some st =>
      Outcome.ok { link_index := raw.link_index, status := st,
                   setting := raw.setting }
  else Outcome.err (EPANETError.fromCode result)

/-- Model of get_else_action: one EN_getelseaction call. -/
def get_else_action (o : RuleOracle) (rule_index action_index : Int) :
    M ActionClause :=
  callLogged (EngineCall.getelseaction rule_index action_index)
    (else_action_outcome o rule_index action_index)

/-- Outcome of get_rule_enabled (src/impls/rule.rs lines 214-222). -/
def rule_enabled_outcome (o : RuleOracle) (rule_index : Int) : Outcome Bool :=
  if (o.getruleenabled rule_index).1 = 0 then
    Outcome.ok ((o.getruleenabled rule_index).2 != 0)
  else Outcome.err (EPANETError.fromCode (o.getruleenabled rule_index).1)

/-- Model of get_rule_enabled: one EN_getruleenabled call. -/
def get_rule_enabled (o : RuleOracle) (rule_index : Int) : M Bool :=
  callLogged (EngineCall.getruleenabled rule_index)
    (rule_enabled_outcome o rule_index)

/-- Model of the for i in 1..=count clause-fetch loops of get_rule: runs f
at indices i, i+1, ... for n iterations, pushing each Ok value and
returning early on the first failure. -/
def fetch_clauses {α : Type} (f : Int → M α) : Nat → Int → M (List α)
  | 0, _ => M.pure []
  | Nat.succ n, i =>
      M.bind (f i) (fun a =>
        M.bind (fetch_clauses f n (i + 1)) (fun rest =>
          M.pure (a :: rest)))

/-- Model of get_rule (src/impls/rule.rs lines 35-101): fetch the id, then
the three clause counts and the priority via EN_getrule, then the clauses
by iterating 1..=count for premises, then-actions and else-actions, then
the enabled flag.  As in the source, the fetched priority out-parameter is
unused and the returned Rule carries priority None. -/
def get_rule (o : RuleOracle) (index : Int) : M Rule :=
  M.bind (get_rule_id o index) (fun rule_id =>
  M.bind (callLogged (EngineCall.getrule index)
      (if (o.getrule index).1 = 0 then Outcome.ok ()
       else Outcome.err (EPANETError.fromCode (o.getrule index).1))) (fun _ =>
  M.bind (fetch_clauses (get_premise o index) (o.getrule index).2.1.toNat 1)
    (fun premises =>
  M.bind (fetch_clauses (get_then_action o index)
      (o.getrule index).2.2.1.toNat 1) (fun then_actions =>
  M.bind (fetch_clauses (get_else_action o index)
      (o.getrule index).2.2.2.1.toNat 1) (fun else_actions =>
  M.bind (get_rule_enabled o index) (fun enabled =>
  M.pure
    { rule_id := rule_id,
      premises := premises,
      then_actions := then_actions,
      else_actions := if else_actions.length = 0 then none else some else_actions,
      priority := none,
      enabled := enabled }))))))

/-- Model of the Control struct (src/types/control.rs lines 17-36) without
the back-reference to the owning project; f64 setting and level are
carried as Int. -/
structure Control where
  index : Int
  control_type : ControlType
  link_index : Int
  setting : Int
  node_index : Int
  level : Int
  enabled : Bool
deriving Repr, DecidableEq

/-- Read oracle for get_control: EN_getcontrol returns (code, type, link
index, setting, node index, level); EN_getcontrolenabled returns
(code, enabled flag). -/
structure ControlReadOracle where
  getcontrol : Int → Int × Int × Int × Int × Int × Int
  getcontrolenabled : Int → Int × Int

/-- Model of get_control (src/impls/control.rs lines 13-45): check_error
on the EN_getcontrol code, then the enabled flag via a distinct call, then
the control type discriminant decoded with unwrap, which panics on an
unrecognized value. -/
def get_control (o : ControlReadOracle) (index : Int) : Outcome Control :=
  let r := o.getcontrol index
  match check_error r.1 with
  | Except.error e => Outcome.err e
  | Except.ok _ =>
    let er := o.getcontrolenabled index
    match check_error er.1 with
    | Except.error e => Outcome.err e
    | Except.ok _ =>
      match ControlType.from_i32 r.2.1 with
      | none => Outcome.panicked "called Option::unwrap on a None value"
      | some t =>
        Outcome.ok
          { index := index, control_type := t, link_index := r.2.2.1,
            setting := r.2.2.2.1, node_index := r.2.2.2.2.1,
            level := r.2.2.2.2.2, enabled := er.2 != 0 }

/-- State-transforming oracle for the control mutation calls.  Each engine
call consumes a state and returns the error code (plus the out-parameter
for EN_addcontrol) and the successor state. -/
structure CtrlOracle (σ : Type) where
  setcontrol : σ → Int → Int → Int → Int → Int → Int → Int × σ
  addcontrol : σ → Int → Int → Int → Int → Int → (Int × Int) × σ
  setcontrolenabled : σ → Int → Bool → Int × σ

/-- Model of update_control (src/impls/control.rs lines 47-61): write the
core fields via EN_setcontrol, then, only if that succeeded, the enabled
flag via EN_setcontrolenabled.  The final engine state is returned next to
the Result; the wrapper performs no compensating call on failure. -/
def update_control {σ : Type} (o : CtrlOracle σ) (s : σ) (c : Control) :
    σ × Except EPANETError Unit :=
  let r := o.setcontrol s c.index c.control_type.to_i32 c.link_index
      c.setting c.node_index c.level
  match check_error r.1 with
  | Except.error e => (r.2, Except.error e)
  | Except.ok _ =>
    let r2 := o.setcontrolenabled r.2 c.index c.enabled
    (r2.2, check_error r2.1)

/-- Model of add_control (src/impls/control.rs lines 67-100): add the core
fields via EN_addcontrol, then set the enabled flag of the new index; on
success return the snapshot built from the inputs and the new index. -/
def add_control {σ : Type} (o : CtrlOracle σ) (s : σ)
    (control_type : ControlType) (link_index setting node_index level : Int)
    (enabled : Bool) : σ × Except EPANETError Control :=
  let r := o.addcontrol s control_type.to_i32 link_index setting node_index level
  match check_error r.1.1 with
  | Except.error e => (r.2, Except.error e)
  | Except.ok _ =>
    let out_index := r.1.2
    let r2 := o.setcontrolenabled r.2 out_index enabled
    match check_error r2.1 with
    | Except.error e => (r2.2, Except.error e)
    | Except.ok _ =>
      (r2.2, Except.ok
        { index := out_index, control_type := control_type,
          link_index := link_index, setting := setting,
          node_index := node_index, level := level, enabled := enabled })

/-- Core fields of one engine-side simple control. -/
structure CtrlCore where
  ctype : Int
  link_index : Int
  setting : Int
  node_index : Int
  level : Int
deriving Repr, DecidableEq

/-- Modelled from the spec: engine-side control storage.  The EPANET
engine is not part of the repository; section 4.2 and section 7 of the
spec describe a control store whose core fields and enabled flag are
written by two distinct, non-atomic calls, where the enabled-flag call can
fail independently of the core-field call.  The enabled_call_fails flag
represents such an engine-side failure condition, and calls lists the
engine entry points invoked, in order. -/
structure CtrlEngineState where
  controls : List CtrlCore
  flags : List Bool
  enabled_call_fails : Bool
  calls : List String
deriving Repr, DecidableEq

/-- Modelled from the spec: EN_setcontrol overwrites the core fields of an
existing control; a bad index yields the nonexistent-control code 241. -/
def en_setcontrol (s : CtrlEngineState) (index ctype link setting node level : Int) :
    Int × CtrlEngineState :=
  let s1 := { s with calls := s.calls ++ ["EN_setcontrol"] }
  let core : CtrlCore :=
    { ctype := ctype, link_index := link, setting := setting,
      node_index := node, level := level }
  if 1 ≤ index ∧ index.toNat ≤ s.controls.length then
    (0, { s1 with controls := s.controls.set (index.toNat - 1) core })
  else (241, s1)

/-- Modelled from the spec: EN_addcontrol appends a control and reports
its new 1-based index; the enabled flag starts true. -/
def en_addcontrol (s : CtrlEngineState) (ctype link setting node level : Int) :
    (Int × Int) × CtrlEngineState :=
  ((0, Int.ofNat (s.controls.length + 1)),
   { s with
     controls := s.controls ++
       [{ ctype := ctype, link_index := link, setting := setting,
          node_index := node, level := level }],
     flags := s.flags ++ [true],
     calls := s.calls ++ ["EN_addcontrol"] })

/-- Modelled from the spec: EN_setcontrolenabled writes the enabled flag;
it fails, leaving the store untouched, when the engine-side failure
condition holds or the index does not resolve. -/
def en_setcontrolenabled (s : CtrlEngineState) (index : Int) (b : Bool) :
    Int × CtrlEngineState :=
  let s1 := { s with calls := s.calls ++ ["EN_setcontrolenabled"] }
  if s.enabled_call_fails then (241, s1)
  else if 1 ≤ index ∧ index.toNat ≤ s.flags.length then
    (0, { s1 with flags := s.flags.set (index.toNat - 1) b })
  else (241, s1)

/-- The spec-modelled control engine packaged as a CtrlOracle. -/
def ctrlEngine : CtrlOracle CtrlEngineState :=
  { setcontrol := en_setcontrol,
    addcontrol := en_addcontrol,
    setcontrolenabled := en_setcontrolenabled }

/-- Core fields a control snapshot asks the engine to store. -/
def Control.core (c : Control) : CtrlCore :=
  { ctype := c.control_type.to_i32, link_index := c.link_index,
    setting := c.setting, node_index := c.node_index, level := c.level }

/-- Model of ActionCodeType (src/types/types.rs): deletion semantics
passed to EN_deletenode / EN_deletelink. -/
inductive ActionCodeType where
  | Unconditional
  | Conditional
deriving Repr, DecidableEq

/-- One engine-side link: its ID and the IDs of its two end nodes. -/
structure NetLink where
  lid : String
  node1 : String
  node2 : String
deriving Repr, DecidableEq

/-- The node and link IDs referenced by the premises and actions of one
engine-side rule. -/
structure RuleRef where
  name : String
  nodes : List String
  links : List String
deriving Repr, DecidableEq

/-- The node and link IDs referenced by one engine-side simple control. -/
structure ControlRef where
  nodes : List String
  links : List String
deriving Repr, DecidableEq

/-- Modelled from the spec: the engine-side network store.  The EPANET
engine is not part of the repository; section 3 of the spec describes
dense 1-based index arrays of nodes, links, rules and controls, where an
index is the position of the element in its array. -/
structure Network where
  nodes : List String
  links : List NetLink
  rules : List RuleRef
  controls : List ControlRef
deriving Repr, DecidableEq

/-- Whether some rule or simple control references the link with this ID. -/
def Network.linkReferenced (net : Network) (lid : String) : Bool :=
  net.rules.any (fun r => r.links.contains lid) ||
  net.controls.any (fun c => c.links.contains lid)

/-- Whether some rule or simple control references the node with this ID. -/
def Network.nodeReferenced (net : Network) (nid : String) : Bool :=
  net.rules.any (fun r => r.nodes.contains nid) ||
  net.controls.any (fun c => c.nodes.contains nid)

/-- Links incident to a node: they are removed together with it. -/
def NetLink.touches (l : NetLink) (nid : String) : Bool :=
  l.node1 == nid || l.node2 == nid

/-- Modelled from the spec: EN_getlinkindex resolves a link ID to its
1-based index, or fails with the undefined-link code 204 (asserted by the
repository test test_add_get_rule). -/
def en_getlinkindex (net : Network) (lid : String) : Int × Int :=
  match net.links.findIdx? (fun l => l.lid == lid) with
  | some i => (0, Int.ofNat (i + 1))
  | none => (204, 0)

/-- Modelled from the spec: EN_getnodeindex resolves a node ID to its
1-based index, or fails with the undefined-node code 203. -/
def en_getnodeindex (net : Network) (nid : String) : Int × Int :=
  match net.nodes.findIdx? (fun n => n == nid) with
  | some i => (0, Int.ofNat (i + 1))
  | none => (203, 0)

/-- The link stored at a 1-based index, if any. -/
def Network.linkAt (net : Network) (index : Int) : Option NetLink :=
  if 1 ≤ index then net.links[index.toNat - 1]? else none

/-- The node ID stored at a 1-based index, if any. -/
def Network.nodeAt (net : Network) (index : Int) : Option String :=
  if 1 ≤ index then net.nodes[index.toNat - 1]? else none

/-- Modelled from the spec: EN_deletelink.  With Conditional semantics the
call fails with the reference-in-use code 261 and leaves the store
untouched whenever a rule or control references the link; otherwise the
link is removed (shifting later indices down) and, for Unconditional
semantics, every rule and control referencing it is silently removed. -/
def en_deletelink (net : Network) (index : Int) (action : ActionCodeType) :
    Int × Network :=
  match net.linkAt index with
  | none => (204, net)
  | some l =>
    match action with
    | ActionCodeType.Conditional =>
      if net.linkReferenced l.lid then (261, net)
      else (0, { net with links := net.links.filter (fun x => x.lid != l.lid) })
    | ActionCodeType.Unconditional =>
      (0, { net with
            links := net.links.filter (fun x => x.lid != l.lid),
            rules := net.rules.filter (fun r => !(r.links.contains l.lid)),
            controls := net.controls.filter (fun c => !(c.links.contains l.lid)) })

/-- Whether a rule survives the unconditional deletion of node nid: it
must reference neither the node nor any link incident to it. -/
def RuleRef.survivesNodeDelete (r : RuleRef) (net : Network) (nid : String) : Bool :=
  !(r.nodes.contains nid) &&
  !(net.links.any (fun l => l.touches nid && r.links.contains l.lid))

/-- Whether a control survives the unconditional deletion of node nid. -/
def ControlRef.survivesNodeDelete (c : ControlRef) (net : Network) (nid : String) : Bool :=
  !(c.nodes.contains nid) &&
  !(net.links.any (fun l => l.touches nid && c.links.contains l.lid))

/-- Modelled from the spec: EN_deletenode.  With Conditional semantics the
call fails with code 261, leaving the store untouched, whenever the node
or one of its incident links is referenced by a rule or control.  With
Unconditional semantics the node, its incident links, and every rule and
control referencing any of them are removed, shifting later indices. -/
def en_deletenode (net : Network) (index : Int) (action : ActionCodeType) :
    Int × Network :=
  match net.nodeAt index with
  | none => (203, net)
  | some nid =>
    let blocked := net.nodeReferenced nid ||
      net.links.any (fun l => l.touches nid && net.linkReferenced l.lid)
    match action with
    | ActionCodeType.Conditional =>
      if blocked then (261, net)
      else (0, { net with
                 nodes := net.nodes.filter (fun n => n != nid),
                 links := net.links.filter (fun l => !(l.touches nid)) })
    | ActionCodeType.Unconditional =>
      (0, { net with
            nodes := net.nodes.filter (fun n => n != nid),
            links := net.links.filter (fun l => !(l.touches nid)),
            rules := net.rules.filter (fun r => r.survivesNodeDelete net nid),
            controls := net.controls.filter (fun c => c.survivesNodeDelete net nid) })

/-- Model of delete_link (src/impls/link.rs lines 14-21): raw code 0 maps
to Ok, any other code to an EPANETError via the From conversion. -/
def delete_link (net : Network) (index : Int) (action : ActionCodeType) :
    Network × Except EPANETError Unit :=
  let r := en_deletelink net index action
  (r.2, if r.1 = 0 then Except.ok ()
        else Except.error (EPANETError.fromCode r.1))

/-- Model of delete_node (src/impls/node.rs lines 115-124): the engine
code is translated by check_error_with_context, attaching the formatted
failure context. -/
def delete_node (net : Network) (index : Int) (action : ActionCodeType) :
    Network × Except EPANETError Unit :=
  let r := en_deletenode net index action
  (r.2, check_error_with_context r.1
    ("Failed to delete node with id " ++ toString index ++
     " with action code " ++ reprStr action))

/-- Model of get_link_index (src/impls/link.rs lines 23-32). -/
def get_link_index (net : Network) (lid : String) : Except EPANETError Int :=
  let r := en_getlinkindex net lid
  if r.1 = 0 then Except.ok r.2 else Except.error (EPANETError.fromCode r.1)

/-- Counts of rule and link arrays, as get_count reports them
(src/impls/project.rs lines 45-53 with CountType RuleCount / LinkCount). -/
def Network.ruleCount (net : Network) : Nat := net.rules.length

/-- Number of links in the engine store. -/
def Network.linkCount (net : Network) : Nat := net.links.length

/-! Engine-side rule storage and the rule-text grammar.  EN_addrule and
the clause storage it fills live in the wrapped EPANET engine, which is
not part of the repository, so they are modelled from the spec: the
line-oriented DSL of section 6 (RULE id / IF object index variable relop
value / AND and OR continuation lines / THEN and ELSE action lines
LINK index STATUS-or-SETTING = value) plus the numeric PRIORITY clause of
the rule data model in section 3.  Parsing is case and whitespace
tolerant; anything outside the token set is rejected. -/

/-- Zeroed action out-parameters, as the Rust callers declare them. -/
def ActionRaw.zeros : ActionRaw := { link_index := 0, status := 0, setting := 0 }

/-- One stored rule: clause data exactly as the engine reports it back
through EN_getrule / EN_getpremise / EN_getthenaction / EN_getelseaction. -/
structure RuleData where
  rule_id : String
  premises : List PremiseRaw
  then_actions : List ActionRaw
  else_actions : List ActionRaw
  priority : Int
  enabled : Bool
deriving Repr, DecidableEq

/-- Engine state backing the rule CRUD calls: the ID arrays used to
resolve the element names appearing in rule text, and the stored rules. -/
structure RuleEngineState where
  nodes : List String
  links : List String
  rules : List RuleData
deriving Repr, DecidableEq

/-- Whitespace characters inside a line of rule text. -/
def isWS (c : Char) : Bool := c == ' ' || c == '\t' || c == '\r'

/-- Split rule text into its lines at newline characters. -/
def splitLinesAux : List Char → List Char → List (List Char)
  | [], acc => [acc.reverse]
  | c :: rest, acc =>
    if c == '\n' then acc.reverse :: splitLinesAux rest []
    else splitLinesAux rest (c :: acc)

/-- Lines of a rule-text block. -/
def splitLines (cs : List Char) : List (List Char) := splitLinesAux cs []

/-- Split one line into whitespace-separated tokens. -/
def tokensAux : List Char → List Char → List (List Char)
  | [], acc => if acc.isEmpty then [] else [acc.reverse]
  | c :: rest, acc =>
    if isWS c then
      if acc.isEmpty then tokensAux rest []
      else acc.reverse :: tokensAux rest []
    else tokensAux rest (c :: acc)

/-- Tokens of one line, upper-cased for case-tolerant keyword matching. -/
def lineTokens (cs : List Char) : List String :=
  (tokensAux cs []).map (fun t => String.mk (t.map Char.toUpper))

/-- Keyword to EN_RuleVariable discriminant. -/
def varOf : String → Option Int
  | "DEMAND" => some 0
  | "HEAD" => some 1
  | "GRADE" => some 2
  | "LEVEL" => some 3
  | "PRESSURE" => some 4
  | "FLOW" => some 5
  | "STATUS" => some 6
  | "SETTING" => some 7
  | "POWER" => some 8
  | "TIME" => some 9
  | "CLOCKTIME" => some 10
  | "FILLTIME" => some 11
  | "DRAINTIME" => some 12
  | _ => none

/-- Relational-operator token to EN_RuleOperator discriminant. -/
def relopOf : String → Option Int
  | "=" => some 0
  | "<>" => some 1
  | "<=" => some 2
  | ">=" => some 3
  | "<" => some 4
  | ">" => some 5
  | "IS" => some 6
  | "NOT" => some 7
  | "BELOW" => some 8
  | "ABOVE" => some 9
  | _ => none

/-- Status word to EN_RuleStatus discriminant. -/
def statusWordOf : String → Option Int
  | "OPEN" => some 1
  | "CLOSED" => some 2
  | "ACTIVE" => some 3
  | _ => none

/-- Resolve an element ID to its 1-based index in an ID array. -/
def resolveId (ids : List String) (tok : String) : Option Int :=
  match ids.findIdx? (fun n => n == tok) with
  | some i => some (Int.ofNat (i + 1))
  | none => none

/-- Value of a decimal digit character. -/
def digitVal (c : Char) : Option Nat :=
  if c.isDigit then some (c.toNat - 48) else none

/-- Accumulate the decimal digits of a token. -/
def natOfDigits : List Char → Nat → Option Nat
  | [], acc => some acc
  | c :: rest, acc =>
    match digitVal c with
    | some d => natOfDigits rest (acc * 10 + d)
    | none => none

/-- Parse a decimal integer token, with an optional leading minus sign. -/
def intOfToken (t : List Char) : Option Int :=
  match t with
  | [] => none
  | c :: rest =>
    if c == '-' then
      match rest with
      | [] => none
      | _ => (natOfDigits rest 0).map (fun n => -(Int.ofNat n))
    else (natOfDigits t 0).map Int.ofNat

/-- Parse the value position of a premise: a status word when the tested
variable is STATUS, a number otherwise. -/
def premiseValue (var : Int) (tok : String) : Option (Int × Int) :=
  if var = 6 then
    match statusWordOf tok with
    | some st => some (st, 0)
    | none => none
  else
    match intOfToken tok.data with
    | some v => some (0, v)
    | none => none

/-- Parse one premise clause body (the tokens after IF, AND or OR). -/
def parsePremiseTokens (s : RuleEngineState) (logop : Int) :
    List String → Option PremiseRaw
  | ["SYSTEM", varTok, relTok, valTok] => do
    let var ← varOf varTok
    let rel ← relopOf relTok
    let sv ← premiseValue var valTok
    some { logop := logop, object := 8, obj_index := 0, var := var,
           relop := rel, status := sv.1, value := sv.2 }
  | [objTok, idTok, varTok, relTok, valTok] => do
    let obj ← if objTok == "NODE" then some (6 : Int)
              else if objTok == "LINK" then some 7 else none
    let idx ← resolveId (if objTok == "NODE" then s.nodes else s.links) idTok
    let var ← varOf varTok
    let rel ← relopOf relTok
    let sv ← premiseValue var valTok
    some { logop := logop, object := obj, obj_index := idx, var := var,
           relop := rel, status := sv.1, value := sv.2 }
  | _ => none

/-- Parse one action clause body (the tokens after THEN, ELSE or AND):
LINK index STATUS-or-SETTING = value. -/
def parseActionTokens (s : RuleEngineState) : List String → Option ActionRaw
  | ["LINK", idTok, attrTok, "=", valTok] => do
    let idx ← resolveId s.links idTok
    if attrTok == "STATUS" then do
      let st ← statusWordOf valTok
      some { link_index := idx, status := st, setting := 0 }
    else if attrTok == "SETTING" then do
      let v ← intOfToken valTok.data
      some { link_index := idx, status := 0, setting := v }
    else none
  | _ => none

/-- Which clause list the parser is currently extending. -/
inductive ParseSection where
  | start
  | prem
  | thenA
  | elseA
deriving Repr, DecidableEq

/-- Intermediate state of the rule-text parse. -/
structure ParseState where
  rid : Option String
  premises : List PremiseRaw
  thens : List ActionRaw
  elses : List ActionRaw
  priority : Int
  sect : ParseSection
deriving Repr, DecidableEq

/-- Parse one line of rule text given the state reached so far. -/
def parseLine (s : RuleEngineState) (st : ParseState) (toks : List String) :
    Option ParseState :=
  match toks with
  | [] => some st
  | kw :: rest =>
    if kw == "RULE" then
      match rest, st.rid with
      | [idTok], none => some { st with rid := some idTok }
      | _, _ => none
    else if kw == "IF" then
      match st.sect with
      | ParseSection.start => do
        let p ← parsePremiseTokens s 1 rest
        some { st with premises := st.premises ++ [p], sect := ParseSection.prem }
      | _ => none
    else if kw == "AND" then
      match st.sect with
      | ParseSection.prem => do
        let p ← parsePremiseTokens s 2 rest
        some { st with premises := st.premises ++ [p] }
      | ParseSection.thenA => do
        let a ← parseActionTokens s rest
        some { st with thens := st.thens ++ [a] }
      | ParseSection.elseA => do
        let a ← parseActionTokens s rest
        some { st with elses := st.elses ++ [a] }
      | ParseSection.start => none
    else if kw == "OR" then
      match st.sect with
      | ParseSection.prem => do
        let p ← parsePremiseTokens s 3 rest
        some { st with premises := st.premises ++ [p] }
      | _ => none
    else if kw == "THEN" then
      match st.sect with
      | ParseSection.prem => do
        let a ← parseActionTokens s rest
        some { st with thens := st.thens ++ [a], sect := ParseSection.thenA }
      | _ => none
    else if kw == "ELSE" then
      match st.sect with
      | ParseSection.thenA => do
        let a ← parseActionTokens s rest
        some { st with elses := st.elses ++ [a], sect := ParseSection.elseA }
      | _ => none
    else if kw == "PRIORITY" then
      match rest with
      | [valTok] => do
        let v ← intOfToken valTok.data
        some { st with priority := v }
      | _ => none
    else none

/-- Run the line parser over every line of the block. -/
def parseAllLines (s : RuleEngineState) : ParseState → List (List String) →
    Option ParseState
  | st, [] => some st
  | st, toks :: rest => do
    let st2 ← parseLine s st toks
    parseAllLines s st2 rest

/-- Parse a full rule-text block into stored rule data.  A block without a
RULE header, without any premise, or without a THEN action is rejected. -/
def parse_rule_text (s : RuleEngineState) (text : String) : Option RuleData :=
  do
    let st ← parseAllLines s
      { rid := none, premises := [], thens := [], elses := [],
        priority := 0, sect := ParseSection.start }
      ((splitLines text.data).map lineTokens)
    let rid ← st.rid
    if st.premises.isEmpty ∨ st.thens.isEmpty then none
    else
      some { rule_id := rid, premises := st.premises,
             then_actions := st.thens, else_actions := st.elses,
             priority := st.priority, enabled := true }

/-- Modelled from the spec: EN_addrule parses the block and appends the
new rule at the next index, or reports the syntax-error code 201. -/
def en_addrule (s : RuleEngineState) (text : String) : Int × RuleEngineState :=
  match parse_rule_text s text with
  | some rd => (0, { s with rules := s.rules ++ [rd] })
  | none => (201, s)

/-- Model of add_rule (src/impls/rule.rs lines 15-24): raw code 0 maps to
Ok, any other code to an EPANETError via the From conversion. -/
def add_rule (s : RuleEngineState) (text : String) :
    RuleEngineState × Except EPANETError Unit :=
  let r := en_addrule s text
  (r.2, if r.1 = 0 then Except.ok ()
        else Except.error (EPANETError.fromCode r.1))

/-- The rule stored at a 1-based index, if any. -/
def RuleEngineState.ruleAt (s : RuleEngineState) (index : Int) : Option RuleData :=
  if 1 ≤ index then s.rules[index.toNat - 1]? else none

/-- Modelled from the spec: the read-back calls EN_getruleID, EN_getrule,
EN_getpremise, EN_getthenaction, EN_getelseaction and EN_getruleenabled
served from the stored rule data.  A bad rule index yields code 257, a bad
clause index code 258; on failure the out-parameters are left untouched,
so the zero-initialized locals of the Rust caller keep their zeros. -/
def stateOracle (s : RuleEngineState) : RuleOracle :=
  { getruleID := fun idx =>
      match s.ruleAt idx with
      | some rd => (0, rd.rule_id)
      | none => (257, ""),
    getrule := fun idx =>
      match s.ruleAt idx with
      | some rd => (0, Int.ofNat rd.premises.length,
          Int.ofNat rd.then_actions.length, Int.ofNat rd.else_actions.length,
          rd.priority)
      | none => (257, 0, 0, 0, 0),
    getpremise := fun idx i =>
      match s.ruleAt idx with
      | some rd =>
        match (if 1 ≤ i then rd.premises[i.toNat - 1]? else none) with
        | some p => (0, p)
        | none => (258, PremiseRaw.zeros)
      | none => (257, PremiseRaw.zeros),
    getthenaction := fun idx i =>
      match s.ruleAt idx with
      | some rd =>
        match (if 1 ≤ i then rd.then_actions[i.toNat - 1]? else none) with
        | some a => (0, a)
        | none => (258, ActionRaw.zeros)
      | none => (257, ActionRaw.zeros),
    getelseaction := fun idx i =>
      match s.ruleAt idx with
      | some rd =>
        match (if 1 ≤ i then rd.else_actions[i.toNat - 1]? else none) with
        | some a => (0, a)
        | none => (258, ActionRaw.zeros)
      | none => (257, ActionRaw.zeros),
    getruleenabled := fun idx =>
      match s.ruleAt idx with
      | some rd => (0, if rd.enabled then 1 else 0)
      | none => (257, 0) }

/-! Hydraulic stepping clock.  The solver clock lives inside the wrapped
engine; it is modelled from the spec, section 4.3: run computes the
solution for the current instant and reports the current time, next
advances to the next hydraulic event and reports the seconds until it,
returning 0 exactly when the simulation duration has elapsed. -/

/-- Modelled from the spec: the engine clock driving EN_runH / EN_nextH.
Time t advances from 0 toward duration in events of at most hstep
seconds. -/
structure HydClock where
  t : Nat
  duration : Nat
  hstep : Nat
deriving Repr, DecidableEq

/-- Modelled from the spec: EN_runH solves for the current instant and
reports the current simulation time.  The wrapper run_h
(src/impls/hydraulic.rs lines 171-179) forwards that time on code 0. -/
def en_runH (c : HydClock) : Nat × HydClock := (c.t, c)

/-- Modelled from the spec: EN_nextH advances the clock to the next
hydraulic event and reports the seconds until it, 0 at the end of the
simulation.  The wrapper next_h (src/impls/hydraulic.rs lines 203-211)
forwards that delta on code 0. -/
def en_nextH (c : HydClock) : Nat × HydClock :=
  if c.duration ≤ c.t then (0, c)
  else
    let dt := min c.hstep (c.duration - c.t)
    (dt, { c with t := c.t + dt })

/-- The run_h / next_h loop of the repository test test_hyd_step
(src/impls/hydraulic.rs lines 331-352): run, then next, exiting when next
reports 0.  The fuel argument bounds the number of iterations so the
function is total; returning none means the loop did not finish within
fuel iterations. -/
def hyd_step_loop : Nat → HydClock → Option (Nat × HydClock)
  | 0, _ => none
  | Nat.succ fuel, c =>
    let r := en_runH c
    let s := en_nextH r.2
    if s.1 = 0 then some (s.1, s.2) else hyd_step_loop fuel s.2

/-! Project lifetime and teardown. -/

/-- Model of the EPANET project wrapper struct (src/lib.rs lines 18-20):
it owns the raw project handle. -/
structure EPANET where
  ph : Int
deriving Repr, DecidableEq

/-- One FFI call on a project handle, as recorded in a run trace. -/
inductive FFICall where
  | call (handle : Int) (name : String)
  | close (handle : Int)
  | deleteproject (handle : Int)
deriving Repr, DecidableEq

/-- Model of the Drop implementation (src/lib.rs lines 135-142): EN_close
followed by EN_deleteproject on the owned handle. -/
def dropGlue (e : EPANET) : List FFICall :=
  [FFICall.close e.ph, FFICall.deleteproject e.ph]

/-- One wrapper operation performed inside the scope of an EPANET value:
its engine entry point and whether it succeeds (a failing operation makes
the caller return early with its error). -/
structure WrapperOp where
  name : String
  succeeds : Bool
deriving Repr, DecidableEq

/-- Calls made by a sequence of wrapper operations: each one calls the
engine once on the handle, and the first failure stops the sequence,
modelling an early error return from the enclosing scope. -/
def runOps (h : Int) : List WrapperOp → List FFICall
  | [] => []
  | op :: rest =>
    FFICall.call h op.name :: (if op.succeeds then runOps h rest else [])

/-- Modelled from the spec: scope-bound lifetime (section 5).  Rust runs
the Drop glue exactly once when the wrapper value goes out of scope, on
the normal path and on early error return alike, and the borrow checker
admits no use of the value afterwards; a scoped run is therefore the calls
of the body followed by the teardown calls. -/
def scopedRun (e : EPANET) (ops : List WrapperOp) : List FFICall :=
  runOps e.ph ops ++ dropGlue e

/-! Concrete fixtures: the Net1 example network used by the repository
test fixtures, and the three rules the test test_add_get_rule adds to it
(src/impls/rule.rs lines 233-237).  Node order is junctions 10 to 32,
then reservoir 9, then tank 2; link order is the twelve pipes followed by
pump 9, which places link 113 at index 10 and pump 9 at index 13 exactly
as the test asserts. -/

/-- Node IDs of Net1 in engine order. -/
def net1nodes : List String :=
  ["10", "11", "12", "13", "21", "22", "23", "31", "32", "9", "2"]

/-- Link IDs of Net1 in engine order. -/
def net1linkIds : List String :=
  ["10", "11", "12", "21", "22", "31", "110", "111", "112", "113", "121",
   "122", "9"]

/-- Links of Net1 with their end nodes. -/
def net1links : List NetLink :=
  [{ lid := "10", node1 := "10", node2 := "11" },
   { lid := "11", node1 := "11", node2 := "12" },
   { lid := "12", node1 := "12", node2 := "13" },
   { lid := "21", node1 := "21", node2 := "22" },
   { lid := "22", node1 := "22", node2 := "23" },
   { lid := "31", node1 := "31", node2 := "32" },
   { lid := "110", node1 := "2", node2 := "12" },
   { lid := "111", node1 := "11", node2 := "21" },
   { lid := "112", node1 := "12", node2 := "22" },
   { lid := "113", node1 := "13", node2 := "23" },
   { lid := "121", node1 := "21", node2 := "31" },
   { lid := "122", node1 := "22", node2 := "32" },
   { lid := "9", node1 := "9", node2 := "10" }]

/-- Net1 with the three rules of test_add_get_rule: rule 1 references
node 2 and link 9, rule 2 links 9 and 31, rule 3 node 23, node 2 and
links 113 and 22. -/
def net1 : Network :=
  { nodes := net1nodes,
    links := net1links,
    rules :=
      [{ name := "1", nodes := ["2"], links := ["9"] },
       { name := "2", nodes := [], links := ["9", "31"] },
       { name := "3", nodes := ["23", "2"], links := ["113", "22"] }],
    controls := [] }

/-- Net1 as a rule-engine state with no rules stored yet. -/
def net1RS : RuleEngineState :=
  { nodes := net1nodes, links := net1linkIds, rules := [] }

/-- Rule text of the repository test rule R1 extended with an explicit
priority clause. -/
def priorityRuleText : String :=
  "RULE 1\nIF NODE 2 LEVEL < 100\nTHEN LINK 9 STATUS = OPEN\nPRIORITY 2"

/-- Oracle whose premise response carries the out-of-range status
discriminant 99 next to otherwise valid fields and a success code. -/
def c3Oracle : RuleOracle :=
  { getruleID := fun _ => (0, "1"),
    getrule := fun _ => (0, 1, 0, 0, 0),
    getpremise := fun _ _ =>
      (0, { logop := 1, object := 6, obj_index := 5, var := 4, relop := 9,
            status := 99, value := 7 }),
    getthenaction := fun _ _ => (0, ActionRaw.zeros),
    getelseaction := fun _ _ => (0, ActionRaw.zeros),
    getruleenabled := fun _ => (0, 1) }

/-- Oracle whose EN_getpremise call fails with code 258 and leaves the
zero-initialized out-parameters untouched, while the id, counts and
enabled calls succeed with one premise announced. -/
def c10Oracle : RuleOracle :=
  { getruleID := fun _ => (0, "1"),
    getrule := fun _ => (0, 1, 0, 0, 0),
    getpremise := fun _ _ => (258, PremiseRaw.zeros),
    getthenaction := fun _ _ => (0, ActionRaw.zeros),
    getelseaction := fun _ _ => (0, ActionRaw.zeros),
    getruleenabled := fun _ => (0, 1) }

/-- Oracle on which every rule-retrieval call succeeds, serving one rule
with one premise, one then-action and one else-action. -/
def okOracle : RuleOracle :=
  { getruleID := fun _ => (0, "1"),
    getrule := fun _ => (0, 1, 1, 1, 0),
    getpremise := fun _ _ =>
      (0, { logop := 1, object := 6, obj_index := 2, var := 3, relop := 4,
            status := 0, value := 100 }),
    getthenaction := fun _ _ => (0, { link_index := 9, status := 1, setting := 0 }),
    getelseaction := fun _ _ => (0, { link_index := 9, status := 2, setting := 0 }),
    getruleenabled := fun _ => (0, 1) }

/-- Control-read oracle answering with an out-of-range control type
discriminant. -/
def c3CtrlOracle : ControlReadOracle :=
  { getcontrol := fun _ => (0, 9, 1, 0, 0, 0),
    getcontrolenabled := fun _ => (0, 1) }

/-- A one-control engine state whose enabled-flag call is set to fail. -/
def c7State : CtrlEngineState :=
  { controls := [{ ctype := 2, link_index := 1, setting := 0, node_index := 0,
                   level := 3600 }],
    flags := [true],
    enabled_call_fails := true,
    calls := [] }

/-- Updated snapshot of the control stored in c7State. -/
def c7Control : Control :=
  { index := 1, control_type := ControlType.Timer, link_index := 1,
    setting := 0, node_index := 0, level := 7200, enabled := false }

/-- The premise encoded by the text of priorityRuleText, as the wrapper
decodes it: node 2 of Net1 is at index 11 and link 9 at index 13. -/
def c2ExpectedPremise : Premise :=
  { logical_operator := LogicalOperator.IF, rule_object := RuleObject.Node,
    object_index := 11, var := RuleVariable.Level,
    rule_operator := RuleOperator.Lt, status := none, value := 100 }

/-- The Rule value the wrapper returns for priorityRuleText: every field
of the text is reproduced except the priority, which is hardcoded to
None by get_rule. -/
def c2ExpectedRule : Rule :=
  { rule_id := "1", premises := [c2ExpectedPremise],
    then_actions := [{ link_index := 13, status := RuleStatus.IsOpen,
                       setting := 0 }],
    else_actions := none, priority := none, enabled := true }

/-- Call trace of get_rule on okOracle at index 1. -/
def c1Log : List EngineCall :=
  [EngineCall.getruleID 1, EngineCall.getrule 1, EngineCall.getpremise 1 1,
   EngineCall.getthenaction 1 1, EngineCall.getelseaction 1 1,
   EngineCall.getruleenabled 1]

/-- Rule value get_rule returns on okOracle at index 1. -/
def c1Rule : Rule :=
  { rule_id := "1",
    premises := [{ logical_operator := LogicalOperator.IF,
                   rule_object := RuleObject.Node, object_index := 2,
                   var := RuleVariable.Level, rule_operator := RuleOperator.Lt,
                   status := none, value := 100 }],
    then_actions := [{ link_index := 9, status := RuleStatus.IsOpen,
                       setting := 0 }],
    else_actions := some [{ link_index := 9, status := RuleStatus.IsClosed,
                            setting := 0 }],
    priority := none, enabled := true }

/-- Oracle answering EN_getpremise with the out-of-range logical-operator
discriminant 5 and a success code. -/
def c3BadLogopOracle : RuleOracle :=
  { getruleID := fun _ => (0, "1"),
    getrule := fun _ => (0, 1, 0, 0, 0),
    getpremise := fun _ _ =>
      (0, { logop := 5, object := 6, obj_index := 1, var := 4, relop := 9,
            status := 0, value := 7 }),
    getthenaction := fun _ _ => (0, ActionRaw.zeros),
    getelseaction := fun _ _ => (0, ActionRaw.zeros),
    getruleenabled := fun _ => (0, 1) }

/-- Oracle answering EN_getthenaction with the out-of-range status
discriminant 7 and a success code. -/
def c3BadActionOracle : RuleOracle :=
  { getruleID := fun _ => (0, "1"),
    getrule := fun _ => (0, 0, 1, 1, 0),
    getpremise := fun _ _ => (0, PremiseRaw.zeros),
    getthenaction := fun _ _ =>
      (0, { link_index := 9, status := 7, setting := 0 }),
    getelseaction := fun _ _ =>
      (0, { link_index := 9, status := 7, setting := 0 }),
    getruleenabled := fun _ => (0, 1) }

/-- Decidable equality of Except results, used to evaluate the embedded
wrapper calls on concrete inputs. -/
instance instDecEqExcept {ε α : Type} [DecidableEq ε] [DecidableEq α] :
    DecidableEq (Except ε α) := fun x y =>
  match x, y with
  | Except.ok a, Except.ok b =>
    match decEq a b with
    | isTrue h => isTrue (h ▸ rfl)
    | isFalse h => isFalse (fun hc => h (Except.ok.inj hc))
  | Except.ok _, Except.error _ => isFalse (fun hc => Except.noConfusion hc)
  | Except.error _, Except.ok _ => isFalse (fun hc => Except.noConfusion hc)
  | Except.error e1, Except.error e2 =>
    match decEq e1 e2 with
    | isTrue h => isTrue (h ▸ rfl)
    | isFalse h => isFalse (fun hc => h (Except.error.inj hc))

/-! Theorems. -/

/-- A successful association-list lookup returns one of the stored
values. -/
theorem lookup_mem_snd {α β : Type} [BEq α] :
    ∀ (l : List (α × β)) (a : α) (b : β), l.lookup a = some b →
      b ∈ l.map Prod.snd := by
  intro l
  induction l with
  | nil => intro a b h; simp [List.lookup] at h
  | cons p t ih =>
    intro a b h
    obtain ⟨k, v⟩ := p
    rw [List.lookup] at h
    cases hc : a == k with
    | true =>
      rw [hc] at h
      simp at h
      simp [h]
    | false =>
      rw [hc] at h
      simp only [List.map_cons, List.mem_cons]
      exact Or.inr (ih a b h)

/-- C6: check_error succeeds exactly on engine code 0; any nonzero code is
wrapped into an EPANETError carrying that code and the static-table
message for it, and the generic message appears only for codes outside
the table. -/
theorem c6_error_propagation_policy :
    (∀ code : Int, check_error code = Except.ok () ↔ code = 0) ∧
    (∀ (code : Int) (e : EPANETError), check_error code = Except.error e →
      e.code = code ∧ e.message = get_error_message code) ∧
    (∀ (code : Int) (m : String), error_message_table.lookup code = some m →
      get_error_message code = m ∧ m ≠ generic_error_message) ∧
    (∀ code : Int, get_error_message code = generic_error_message →
      error_message_table.lookup code = none) := by
  refine ⟨?_, ?_, ?_, ?_⟩
  · intro code
    constructor
    · intro h
      by_contra hne
      simp [check_error, hne] at h
    · intro h
      simp [check_error, h]
  · intro code e h
    by_cases hc : code = 0
    · simp [check_error, hc] at h
    · simp [check_error, hc] at h
      rw [← h]
      exact ⟨rfl, rfl⟩
  · intro code m h
    have hv : m ∈ error_message_table.map Prod.snd := lookup_mem_snd _ _ _ h
    refine ⟨by simp [get_error_message, h], ?_⟩
    intro hg
    rw [hg] at hv
    revert hv
    decide
  · intro code h
    cases hl : error_message_table.lookup code with
    | none => rfl
    | some m =>
      have hv := lookup_mem_snd _ _ _ hl
      simp [get_error_message, hl] at h
      rw [h] at hv
      have hng : generic_error_message ∉ error_message_table.map Prod.snd := by
        decide
      exact absurd hv hng

/-- Witness for C6 at the reference-in-use code 261 asserted by the
repository test. -/
theorem c6_error_propagation_policy_witness :
    EPANETError.code (EPANETError.fromCode 261) = 261 ∧
    get_error_message 261 =
      "attempt to delete a node or link contained in a control" ∧
    "attempt to delete a node or link contained in a control" ≠
      generic_error_message := by
  have h2 := c6_error_propagation_policy.2.1 261 (EPANETError.fromCode 261)
    rfl
  have h3 := c6_error_propagation_policy.2.2.1 261
    "attempt to delete a node or link contained in a control" (by decide)
  exact ⟨h2.1, h3.1, h3.2⟩

/-- C7: on the spec-modelled control engine, when the enabled-flag call
fails, update_control and add_control return Err while the core fields
written by the first engine call persist in the final state (the new
control stays added), and the call trace shows the core-field call made
first with no compensating call after the failure. -/
theorem c7_control_write_not_transactional :
    (∀ (s : CtrlEngineState) (c : Control),
      s.enabled_call_fails = true → 1 ≤ c.index →
      c.index.toNat ≤ s.controls.length →
      (∃ e, (update_control ctrlEngine s c).2 = Except.error e) ∧
      (update_control ctrlEngine s c).1.controls =
        s.controls.set (c.index.toNat - 1) c.core ∧
      (update_control ctrlEngine s c).1.calls =
        s.calls ++ ["EN_setcontrol", "EN_setcontrolenabled"]) ∧
    (∀ (s : CtrlEngineState) (ct : ControlType) (li se ni le : Int) (en : Bool),
      s.enabled_call_fails = true →
      (∃ e, (add_control ctrlEngine s ct li se ni le en).2 = Except.error e) ∧
      (add_control ctrlEngine s ct li se ni le en).1.controls =
        s.controls ++ [{ ctype := ct.to_i32, link_index := li, setting := se,
                         node_index := ni, level := le }] ∧
      (add_control ctrlEngine s ct li se ni le en).1.calls =
        s.calls ++ ["EN_addcontrol", "EN_setcontrolenabled"]) := by
  constructor
  · intro s c hf h1 h2
    refine ⟨⟨EPANETError.fromCode 241, ?_⟩, ?_, ?_⟩ <;>
      simp [update_control, ctrlEngine, en_setcontrol, en_setcontrolenabled,
        check_error, h1, h2, hf, Control.core]
  · intro s ct li se ni le en hf
    refine ⟨⟨EPANETError.fromCode 241, ?_⟩, ?_, ?_⟩ <;>
      simp [add_control, ctrlEngine, en_addcontrol, en_setcontrolenabled,
        check_error, hf]

/-- Witness for C7 on the one-control engine state with a failing
enabled-flag call. -/
theorem c7_control_write_not_transactional_witness :
    (∃ e, (update_control ctrlEngine c7State c7Control).2 = Except.error e) ∧
    (update_control ctrlEngine c7State c7Control).1.controls =
      c7State.controls.set (c7Control.index.toNat - 1) c7Control.core ∧
    (update_control ctrlEngine c7State c7Control).1.calls =
      c7State.calls ++ ["EN_setcontrol", "EN_setcontrolenabled"] :=
  c7_control_write_not_transactional.1 c7State c7Control rfl (by decide)
    (by decide)

/-- The stepping loop reaches the duration and ends with a zero delta as
soon as the fuel exceeds the remaining simulated time. -/
theorem hyd_step_loop_reaches_duration :
    ∀ (fuel : Nat) (c : HydClock), c.duration - c.t < fuel →
      c.t ≤ c.duration → 0 < c.hstep →
      hyd_step_loop fuel c = some (0, { c with t := c.duration }) := by
  intro fuel
  induction fuel with
  | zero => intro c h _ _; omega
  | succ n ih =>
    intro c hfuel hle hstep
    rw [hyd_step_loop]
    by_cases hend : c.duration ≤ c.t
    · have ht : c.t = c.duration := le_antisymm hle hend
      cases c
      simp_all [en_runH, en_nextH]
    · push_neg at hend
      have hdt1 : min c.hstep (c.duration - c.t) ≤ c.duration - c.t :=
        min_le_right _ _
      have hdt2 : 0 < min c.hstep (c.duration - c.t) :=
        lt_min hstep (by omega)
      have hme : en_nextH c = (min c.hstep (c.duration - c.t),
          { c with t := c.t + min c.hstep (c.duration - c.t) }) := by
        rw [en_nextH, if_neg (by omega)]
      rw [en_runH, hme]
      simp only
      rw [if_neg (by omega)]
      have ihc := ih { c with t := c.t + min c.hstep (c.duration - c.t) }
        (by simp; omega) (by simp; omega) (by simpa using hstep)
      simpa using ihc

/-- C8: for any nonzero duration d and positive hydraulic step, the
run-next loop of test_hyd_step finishes within d + 1 iterations, the last
next call reports 0, and the clock at termination has advanced by exactly
d seconds of simulated time. -/
theorem c8_hydraulic_step_loop_terminates :
    ∀ (d h : Nat), 0 < d → 0 < h →
      hyd_step_loop (d + 1) { t := 0, duration := d, hstep := h } =
        some (0, { t := d, duration := d, hstep := h }) := by
  intro d h _ hh
  have hr := hyd_step_loop_reaches_duration (d + 1)
    { t := 0, duration := d, hstep := h } (by simp) (by simp) (by simpa)
  simpa using hr

/-- Witness for C8: a 6-second simulation with a 4-second hydraulic step
ends after the events at 0, 4 and 6 seconds. -/
theorem c8_hydraulic_step_loop_terminates_witness :
    hyd_step_loop 7 { t := 0, duration := 6, hstep := 4 } =
      some (0, { t := 6, duration := 6, hstep := 4 }) :=
  c8_hydraulic_step_loop_terminates 6 4 (by decide) (by decide)

/-- Body operations of a scoped run only make plain calls on the handle:
close and deleteproject never appear before the drop glue. -/
theorem runOps_calls_only (h : Int) :
    ∀ (ops : List WrapperOp) (c : FFICall), c ∈ runOps h ops →
      ∃ nm, c = FFICall.call h nm := by
  intro ops
  induction ops with
  | nil => intro c hc; simp [runOps] at hc
  | cons op rest ih =>
    intro c hc
    rw [runOps] at hc
    rcases List.mem_cons.mp hc with h1 | h2
    · exact ⟨op.name, h1⟩
    · cases hs : op.succeeds with
      | true => rw [hs] at h2; exact ih c (by simpa using h2)
      | false => rw [hs] at h2; simp at h2

/-- C9: every scoped run of wrapper operations, whether it ends normally
or with an early error return, is followed by exactly one EN_close and
then exactly one EN_deleteproject on the owned handle, and every use of
the handle in the body precedes that teardown suffix. -/
theorem c9_teardown_exactly_once :
    ∀ (e : EPANET) (ops : List WrapperOp),
      scopedRun e ops = runOps e.ph ops ++
        [FFICall.close e.ph, FFICall.deleteproject e.ph] ∧
      (scopedRun e ops).count (FFICall.close e.ph) = 1 ∧
      (scopedRun e ops).count (FFICall.deleteproject e.ph) = 1 ∧
      (∀ c ∈ runOps e.ph ops, ∃ nm, c = FFICall.call e.ph nm) := by
  intro e ops
  have hbody := runOps_calls_only e.ph ops
  have hclose : FFICall.close e.ph ∉ runOps e.ph ops := by
    intro hmem
    rcases hbody _ hmem with ⟨nm, hnm⟩
    simp at hnm
  have hdel : FFICall.deleteproject e.ph ∉ runOps e.ph ops := by
    intro hmem
    rcases hbody _ hmem with ⟨nm, hnm⟩
    simp at hnm
  refine ⟨rfl, ?_, ?_, hbody⟩
  · rw [scopedRun, dropGlue, List.count_append,
      List.count_eq_zero.mpr hclose]
    simp [List.count_cons]
  · rw [scopedRun, dropGlue, List.count_append,
      List.count_eq_zero.mpr hdel]
    simp [List.count_cons]

/-- C4: a Conditional delete of a link that some rule or control
references fails with the reference-in-use code 261 and leaves the
network store untouched, so rule count, link count and every link index
are unchanged; likewise for a Conditional node delete when the node or
an incident link is referenced. -/
theorem c4_conditional_delete_blocks :
    (∀ (net : Network) (index : Int) (l : NetLink),
      net.linkAt index = some l → net.linkReferenced l.lid = true →
      (delete_link net index ActionCodeType.Conditional).1 = net ∧
      (∃ e, (delete_link net index ActionCodeType.Conditional).2 =
          Except.error e ∧ e.code = 261) ∧
      (delete_link net index ActionCodeType.Conditional).1.ruleCount =
        net.ruleCount ∧
      (delete_link net index ActionCodeType.Conditional).1.linkCount =
        net.linkCount ∧
      (∀ lid, en_getlinkindex
          (delete_link net index ActionCodeType.Conditional).1 lid =
        en_getlinkindex net lid)) ∧
    (∀ (net : Network) (index : Int) (nid : String),
      net.nodeAt index = some nid →
      (net.nodeReferenced nid ||
        net.links.any (fun l => l.touches nid && net.linkReferenced l.lid)) =
        true →
      (delete_node net index ActionCodeType.Conditional).1 = net ∧
      (∃ e, (delete_node net index ActionCodeType.Conditional).2 =
          Except.error e ∧ e.code = 261)) := by
  constructor
  · intro net index l hl href
    have hres : delete_link net index ActionCodeType.Conditional =
        (net, Except.error (EPANETError.fromCode 261)) := by
      simp [delete_link, en_deletelink, hl, href]
    rw [hres]
    exact ⟨rfl, ⟨EPANETError.fromCode 261, rfl, rfl⟩, rfl, rfl, fun _ => rfl⟩
  · intro net index nid hn hbl
    have hres : delete_node net index ActionCodeType.Conditional =
        (net, Except.error ((EPANETError.fromCode 261).with_context
          ("Failed to delete node with id " ++ toString index ++
           " with action code " ++ reprStr ActionCodeType.Conditional))) := by
      simp [delete_node, en_deletenode, hn, hbl, check_error_with_context]
    rw [hres]
    exact ⟨rfl, ⟨_, rfl, rfl⟩⟩

/-- Witness for C4 on Net1 with the three test rules: link 113 at index
10 is referenced by rule 3, and node 23 at index 7 is referenced too. -/
theorem c4_conditional_delete_blocks_witness :
    ((delete_link net1 10 ActionCodeType.Conditional).1 = net1 ∧
      (∃ e, (delete_link net1 10 ActionCodeType.Conditional).2 =
        Except.error e ∧ e.code = 261) ∧
      (delete_link net1 10 ActionCodeType.Conditional).1.ruleCount =
        net1.ruleCount ∧
      (delete_link net1 10 ActionCodeType.Conditional).1.linkCount =
        net1.linkCount ∧
      (∀ lid, en_getlinkindex
          (delete_link net1 10 ActionCodeType.Conditional).1 lid =
        en_getlinkindex net1 lid)) ∧
    ((delete_node net1 7 ActionCodeType.Conditional).1 = net1 ∧
      (∃ e, (delete_node net1 7 ActionCodeType.Conditional).2 =
        Except.error e ∧ e.code = 261)) :=
  ⟨c4_conditional_delete_blocks.1 net1 10
      { lid := "113", node1 := "13", node2 := "23" } (by decide) (by decide),
   c4_conditional_delete_blocks.2 net1 7 "23" (by decide) (by decide)⟩

/-- Positions in a filtered list: the element at position j whose kept
flag is true lands at position j minus the number of dropped elements
below it. -/
theorem filter_keep_shift {α : Type} (p : α → Bool) :
    ∀ (l : List α) (j : Nat) (x : α), l[j]? = some x → p x = true →
      ((l.take j).filter (fun a => !(p a))).length ≤ j ∧
      (l.filter p)[j - ((l.take j).filter (fun a => !(p a))).length]? =
        some x := by
  intro l
  induction l with
  | nil => intro j x h _; simp at h
  | cons a t ih =>
    intro j x hj hp
    cases j with
    | zero =>
      rw [List.getElem?_cons_zero] at hj
      have hax : a = x := by simpa using hj
      subst hax
      constructor
      · simp
      · simp [List.filter_cons, hp]
    | succ k =>
      rw [List.getElem?_cons_succ] at hj
      have iht := ih k x hj hp
      rw [List.take_succ_cons]
      by_cases hpa : p a = true
      · have hd : ((a :: t.take k).filter (fun a => !(p a))).length =
            ((t.take k).filter (fun a => !(p a))).length := by
          simp [List.filter_cons, hpa]
        rw [hd]
        have hfl : (a :: t).filter p = a :: t.filter p := by
          simp [List.filter_cons, hpa]
        rw [hfl]
        refine ⟨by omega, ?_⟩
        have harith : k + 1 - ((t.take k).filter (fun a => !(p a))).length =
            (k - ((t.take k).filter (fun a => !(p a))).length) + 1 := by
          omega
        rw [harith, List.getElem?_cons_succ]
        exact iht.2
      · have hpa2 : p a = false := by
          cases hb : p a
          · rfl
          · exact absurd hb hpa
        have hd : ((a :: t.take k).filter (fun a => !(p a))).length =
            ((t.take k).filter (fun a => !(p a))).length + 1 := by
          simp [List.filter_cons, hpa2]
        rw [hd]
        have hfl : (a :: t).filter p = t.filter p := by
          simp [List.filter_cons, hpa2]
        rw [hfl]
        refine ⟨by omega, ?_⟩
        have harith : k + 1 - (((t.take k).filter (fun a => !(p a))).length + 1) =
            k - ((t.take k).filter (fun a => !(p a))).length := by
          omega
        rw [harith]
        exact iht.2

/-- C5: after an Unconditional node delete, no surviving rule or control
references the node or a link removed with it, and every surviving link
or rule keeps its relative order with its index lowered by exactly the
number of like-kind elements deleted below it; on the Net1 test network,
unconditionally deleting node 23 removes rule 3 and links 22 and 113,
leaving 2 rules, no link 22, and pump 9 shifted from index 13 to 11. -/
theorem c5_unconditional_delete_cascades_and_shifts :
    (∀ (net : Network) (index : Int) (nid : String),
      net.nodeAt index = some nid →
      (∀ r ∈ ((en_deletenode net index ActionCodeType.Unconditional).2).rules,
        r.survivesNodeDelete net nid = true) ∧
      (∀ c ∈ ((en_deletenode net index ActionCodeType.Unconditional).2).controls,
        c.survivesNodeDelete net nid = true) ∧
      (∀ (j : Nat) (x : NetLink), net.links[j]? = some x →
        x.touches nid = false →
        ((net.links.take j).filter (fun l => l.touches nid)).length ≤ j ∧
        ((en_deletenode net index ActionCodeType.Unconditional).2).links[
          j - ((net.links.take j).filter (fun l => l.touches nid)).length]? =
          some x) ∧
      (∀ (j : Nat) (r : RuleRef), net.rules[j]? = some r →
        r.survivesNodeDelete net nid = true →
        ((net.rules.take j).filter
          (fun q => !(q.survivesNodeDelete net nid))).length ≤ j ∧
        ((en_deletenode net index ActionCodeType.Unconditional).2).rules[
          j - ((net.rules.take j).filter
            (fun q => !(q.survivesNodeDelete net nid))).length]? = some r)) ∧
    ((en_deletenode net1 7 ActionCodeType.Unconditional).1 = 0 ∧
     ((en_deletenode net1 7 ActionCodeType.Unconditional).2).ruleCount = 2 ∧
     (∃ e, get_link_index
        (en_deletenode net1 7 ActionCodeType.Unconditional).2 "22" =
        Except.error e ∧ e.code = 204) ∧
     get_link_index net1 "9" = Except.ok 13 ∧
     get_link_index (en_deletenode net1 7 ActionCodeType.Unconditional).2 "9" =
       Except.ok 11) := by
  constructor
  · intro net index nid hn
    have hrules : ((en_deletenode net index ActionCodeType.Unconditional).2).rules =
        net.rules.filter (fun r => r.survivesNodeDelete net nid) := by
      simp [en_deletenode, hn]
    have hctrls : ((en_deletenode net index ActionCodeType.Unconditional).2).controls =
        net.controls.filter (fun c => c.survivesNodeDelete net nid) := by
      simp [en_deletenode, hn]
    have hlinks : ((en_deletenode net index ActionCodeType.Unconditional).2).links =
        net.links.filter (fun l => !(l.touches nid)) := by
      simp [en_deletenode, hn]
    refine ⟨?_, ?_, ?_, ?_⟩
    · intro r hr
      rw [hrules] at hr
      have h2 := List.of_mem_filter hr
      simpa using h2
    · intro c hc
      rw [hctrls] at hc
      have h2 := List.of_mem_filter hc
      simpa using h2
    · intro j x hj hx
      have hkeep : (fun l => !(NetLink.touches l nid)) x = true := by
        simp [hx]
      have hs := filter_keep_shift (fun l => !(l.touches nid)) net.links j x
        hj hkeep
      have hnn : (fun a => !((fun l => !(NetLink.touches l nid)) a)) =
          (fun l => NetLink.touches l nid) := by
        funext a
        simp
      rw [hnn] at hs
      rw [hlinks]
      exact hs
    · intro j r hj hr
      have hs := filter_keep_shift (fun q => q.survivesNodeDelete net nid)
        net.rules j r hj hr
      rw [hrules]
      exact hs
  · refine ⟨by decide, by decide, ⟨EPANETError.fromCode 204, rfl, rfl⟩,
      rfl, rfl⟩

/-- Witness for C5: on Net1, pump 9 sits at 0-based position 12, two of
the links below it touch node 23, and after the unconditional delete it
sits at position 10, an index drop of exactly 2. -/
theorem c5_unconditional_delete_cascades_and_shifts_witness :
    ((net1.links.take 12).filter (fun l => l.touches "23")).length ≤ 12 ∧
    ((en_deletenode net1 7 ActionCodeType.Unconditional).2).links[
      12 - ((net1.links.take 12).filter (fun l => l.touches "23")).length]? =
      some { lid := "9", node1 := "9", node2 := "10" } :=
  ((c5_unconditional_delete_cascades_and_shifts.1 net1 7 "23"
    (by decide)).2.2.1 12 { lid := "9", node1 := "9", node2 := "10" }
    (by decide) (by decide))

/-- Stepping rule for M.bind when the first computation succeeds. -/
theorem M.bind_ok {α β : Type} (x : M α) (f : α → M β)
    (log log2 : List EngineCall) (a : α) (hx : x log = (log2, Outcome.ok a)) :
    M.bind x f log = f a log2 := by
  rw [M.bind, hx]

/-- Stepping rule for M.bind when the first computation returns Err. -/
theorem M.bind_err {α β : Type} (x : M α) (f : α → M β)
    (log log2 : List EngineCall) (e : EPANETError)
    (hx : x log = (log2, Outcome.err e)) :
    M.bind x f log = (log2, Outcome.err e) := by
  rw [M.bind, hx]

/-- Stepping rule for M.bind when the first computation panics. -/
theorem M.bind_panicked {α β : Type} (x : M α) (f : α → M β)
    (log log2 : List EngineCall) (msg : String)
    (hx : x log = (log2, Outcome.panicked msg)) :
    M.bind x f log = (log2, Outcome.panicked msg) := by
  rw [M.bind, hx]

/-- Unfolding of get_premise to the one-call form used by the loop
inversion lemma. -/
theorem get_premise_fun (o : RuleOracle) (ri : Int) :
    get_premise o ri = fun j =>
      callLogged (EngineCall.getpremise ri j) (premise_outcome o ri j) := rfl

/-- Unfolding of get_then_action to the one-call form. -/
theorem get_then_action_fun (o : RuleOracle) (ri : Int) :
    get_then_action o ri = fun j =>
      callLogged (EngineCall.getthenaction ri j)
        (then_action_outcome o ri j) := rfl

/-- Unfolding of get_else_action to the one-call form. -/
theorem get_else_action_fun (o : RuleOracle) (ri : Int) :
    get_else_action o ri = fun j =>
      callLogged (EngineCall.getelseaction ri j)
        (else_action_outcome o ri j) := rfl

/-- Inversion of a successful clause-fetch loop: it makes exactly one
engine call per index, in ascending order starting at i, and collects the
Ok values in fetch order. -/
theorem fetch_clauses_ok_inv {α : Type} (g : Int → EngineCall)
    (h : Int → Outcome α) :
    ∀ (n : Nat) (i : Int) (log log2 : List EngineCall) (out : List α),
      fetch_clauses (fun j => callLogged (g j) (h j)) n i log =
        (log2, Outcome.ok out) →
      log2 = log ++ (List.range n).map (fun k => g (i + Int.ofNat k)) ∧
      out.length = n ∧
      (∀ k, k < n → ∃ a, out[k]? = some a ∧
        h (i + Int.ofNat k) = Outcome.ok a) := by
  intro n
  induction n with
  | zero =>
    intro i log log2 out hf
    rw [fetch_clauses] at hf
    simp only [M.pure] at hf
    have h1 := congrArg Prod.fst hf
    have h2 := congrArg Prod.snd hf
    simp only at h1 h2
    refine ⟨by simp [← h1], ?_, ?_⟩
    · have hogen : ([] : List α) = out := by
        cases h2
        rfl
      simp [← hogen]
    · intro k hk
      omega
  | succ m ih =>
    intro i log log2 out hf
    rw [fetch_clauses] at hf
    have hcall : callLogged (g i) (h i) log = (log ++ [g i], h i) := rfl
    cases hhi : h i with
    | err e =>
      rw [M.bind_err _ _ _ _ e (by rw [hcall, hhi])] at hf
      simp at hf
    | panicked msg =>
      rw [M.bind_panicked _ _ _ _ msg (by rw [hcall, hhi])] at hf
      simp at hf
    | ok a =>
      rw [M.bind_ok _ _ _ _ a (by rw [hcall, hhi])] at hf
      rcases hrec : fetch_clauses (fun j => callLogged (g j) (h j)) m (i + 1)
          (log ++ [g i]) with ⟨log3, out3⟩
      cases out3 with
      | err e =>
        rw [M.bind_err _ _ _ _ e hrec] at hf
        simp at hf
      | panicked msg =>
        rw [M.bind_panicked _ _ _ _ msg hrec] at hf
        simp at hf
      | ok rest =>
        rw [M.bind_ok _ _ _ _ rest hrec] at hf
        simp only [M.pure] at hf
        have h1 := congrArg Prod.fst hf
        have h2 := congrArg Prod.snd hf
        simp only at h1 h2
        have hout : a :: rest = out := by
          cases h2
          rfl
        have ihm := ih (i + 1) (log ++ [g i]) log3 rest hrec
        have hcast : ∀ k : Nat,
            (i + 1) + Int.ofNat k = i + Int.ofNat (k + 1) := by
          intro k
          simp [Int.ofNat_succ]
          ring
        refine ⟨?_, ?_, ?_⟩
        · rw [← h1, ihm.1, List.range_succ_eq_map, List.map_cons,
            List.map_map]
          have hmap : (List.range m).map (fun k => g ((i + 1) + Int.ofNat k)) =
              (List.range m).map ((fun k => g (i + Int.ofNat k)) ∘ Nat.succ) := by
            apply List.map_congr_left
            intro k _
            simp only [Function.comp]
            rw [hcast k]
          rw [hmap]
          simp
        · rw [← hout]
          simp [ihm.2.1]
        · intro k hk
          rw [← hout]
          cases k with
          | zero =>
            refine ⟨a, by simp, ?_⟩
            simpa using hhi
          | succ k2 =>
            rcases ihm.2.2 k2 (by omega) with ⟨b, hb1, hb2⟩
            refine ⟨b, by simpa using hb1, ?_⟩
            rw [← hcast k2]
            exact hb2

/-- C1: whenever get_rule returns Ok, its engine-call trace is the id
fetch, then the single EN_getrule count query, then the premise fetches
at indices 1 through premise count in ascending order, then the
then-action fetches, then the else-action fetches, then the enabled
fetch; the returned Rule holds exactly premise-count premises and
then-count then-actions, element k coming from clause index k + 1. -/
theorem c1_get_rule_counts_before_clauses :
    ∀ (o : RuleOracle) (idx : Int) (log : List EngineCall) (r : Rule)
      (pc tc ec pr : Int),
      o.getrule idx = (0, pc, tc, ec, pr) →
      get_rule o idx [] = (log, Outcome.ok r) →
      log = [EngineCall.getruleID idx, EngineCall.getrule idx] ++
        (List.range pc.toNat).map
          (fun k => EngineCall.getpremise idx (1 + Int.ofNat k)) ++
        (List.range tc.toNat).map
          (fun k => EngineCall.getthenaction idx (1 + Int.ofNat k)) ++
        (List.range ec.toNat).map
          (fun k => EngineCall.getelseaction idx (1 + Int.ofNat k)) ++
        [EngineCall.getruleenabled idx] ∧
      r.premises.length = pc.toNat ∧
      r.then_actions.length = tc.toNat ∧
      (∀ k, k < pc.toNat → ∃ p, r.premises[k]? = some p ∧
        premise_outcome o idx (1 + Int.ofNat k) = Outcome.ok p) ∧
      (∀ k, k < tc.toNat → ∃ a, r.then_actions[k]? = some a ∧
        then_action_outcome o idx (1 + Int.ofNat k) = Outcome.ok a) := by
  intro o idx log r pc tc ec pr hgr hrun
  rw [get_rule] at hrun
  rw [hgr] at hrun
  have hx0 : get_rule_id o idx [] =
      ([EngineCall.getruleID idx], rule_id_outcome o idx) := rfl
  cases hid : rule_id_outcome o idx with
  | err e =>
    rw [M.bind_err _ _ _ _ e (by rw [hx0, hid])] at hrun
    simp at hrun
  | panicked msg =>
    rw [M.bind_panicked _ _ _ _ msg (by rw [hx0, hid])] at hrun
    simp at hrun
  | ok rid =>
    rw [M.bind_ok _ _ _ _ rid (by rw [hx0, hid])] at hrun
    have hx2 : callLogged (EngineCall.getrule idx)
        (if ((0 : Int), pc, tc, ec, pr).1 = 0 then Outcome.ok ()
         else Outcome.err (EPANETError.fromCode ((0 : Int), pc, tc, ec, pr).1))
        [EngineCall.getruleID idx] =
        ([EngineCall.getruleID idx, EngineCall.getrule idx],
         Outcome.ok ()) := rfl
    rw [M.bind_ok _ _ _ _ () hx2] at hrun
    rcases hp : fetch_clauses (get_premise o idx)
        ((0 : Int), pc, tc, ec, pr).2.1.toNat 1
        [EngineCall.getruleID idx, EngineCall.getrule idx] with ⟨logp, outp⟩
    cases outp with
    | err e =>
      rw [M.bind_err _ _ _ _ e hp] at hrun
      simp at hrun
    | panicked msg =>
      rw [M.bind_panicked _ _ _ _ msg hp] at hrun
      simp at hrun
    | ok premises =>
      rw [M.bind_ok _ _ _ _ premises hp] at hrun
      rcases ht : fetch_clauses (get_then_action o idx)
          ((0 : Int), pc, tc, ec, pr).2.2.1.toNat 1 logp with ⟨logt, outt⟩
      cases outt with
      | err e =>
        rw [M.bind_err _ _ _ _ e ht] at hrun
        simp at hrun
      | panicked msg =>
        rw [M.bind_panicked _ _ _ _ msg ht] at hrun
        simp at hrun
      | ok then_actions =>
        rw [M.bind_ok _ _ _ _ then_actions ht] at hrun
        rcases he : fetch_clauses (get_else_action o idx)
            ((0 : Int), pc, tc, ec, pr).2.2.2.1.toNat 1 logt with ⟨loge, oute⟩
        cases oute with
        | err e =>
          rw [M.bind_err _ _ _ _ e he] at hrun
          simp at hrun
        | panicked msg =>
          rw [M.bind_panicked _ _ _ _ msg he] at hrun
          simp at hrun
        | ok else_actions =>
          rw [M.bind_ok _ _ _ _ else_actions he] at hrun
          have hx5 : get_rule_enabled o idx loge =
              (loge ++ [EngineCall.getruleenabled idx],
               rule_enabled_outcome o idx) := rfl
          cases hen : rule_enabled_outcome o idx with
          | err e =>
            rw [M.bind_err _ _ _ _ e (by rw [hx5, hen])] at hrun
            simp at hrun
          | panicked msg =>
            rw [M.bind_panicked _ _ _ _ msg (by rw [hx5, hen])] at hrun
            simp at hrun
          | ok enabled =>
            rw [M.bind_ok _ _ _ _ enabled (by rw [hx5, hen])] at hrun
            simp only [M.pure] at hrun
            have hlog := congrArg Prod.fst hrun
            have hval := congrArg Prod.snd hrun
            simp only at hlog hval
            have hr : ({ rule_id := rid,
                         premises := premises,
                         then_actions := then_actions,
                         else_actions := if else_actions.length = 0 then none
                                         else some else_actions,
                         priority := none,
                         enabled := enabled } : Rule) = r := by
              cases hval
              rfl
            rw [get_premise_fun] at hp
            rw [get_then_action_fun] at ht
            rw [get_else_action_fun] at he
            have hpc : ((0 : Int), pc, tc, ec, pr).2.1.toNat = pc.toNat := rfl
            have htc : ((0 : Int), pc, tc, ec, pr).2.2.1.toNat = tc.toNat := rfl
            have hec : ((0 : Int), pc, tc, ec, pr).2.2.2.1.toNat =
              ec.toNat := rfl
            rw [hpc] at hp
            rw [htc] at ht
            rw [hec] at he
            have hpi := fetch_clauses_ok_inv _ _ pc.toNat 1 _ _ _ hp
            have hti := fetch_clauses_ok_inv _ _ tc.toNat 1 _ _ _ ht
            have hei := fetch_clauses_ok_inv _ _ ec.toNat 1 _ _ _ he
            refine ⟨?_, ?_, ?_, ?_, ?_⟩
            · rw [← hlog, hei.1, hti.1, hpi.1]
            · rw [← hr]
              simpa using hpi.2.1
            · rw [← hr]
              simpa using hti.2.1
            · intro k hk
              rcases hpi.2.2 k hk with ⟨p, hp1, hp2⟩
              refine ⟨p, ?_, hp2⟩
              rw [← hr]
              simpa using hp1
            · intro k hk
              rcases hti.2.2 k hk with ⟨a, ha1, ha2⟩
              refine ⟨a, ?_, ha2⟩
              rw [← hr]
              simpa using ha1

/-- Witness for C1 on the all-success oracle okOracle serving one rule
with one premise, one then-action and one else-action. -/
theorem c1_get_rule_counts_before_clauses_witness :
    c1Log = [EngineCall.getruleID 1, EngineCall.getrule 1] ++
      (List.range (Int.toNat 1)).map
        (fun k => EngineCall.getpremise 1 (1 + Int.ofNat k)) ++
      (List.range (Int.toNat 1)).map
        (fun k => EngineCall.getthenaction 1 (1 + Int.ofNat k)) ++
      (List.range (Int.toNat 1)).map
        (fun k => EngineCall.getelseaction 1 (1 + Int.ofNat k)) ++
      [EngineCall.getruleenabled 1] ∧
    c1Rule.premises.length = Int.toNat 1 ∧
    c1Rule.then_actions.length = Int.toNat 1 := by
  have h := c1_get_rule_counts_before_clauses okOracle 1 c1Log c1Rule
    1 1 1 0 rfl rfl
  exact ⟨h.1, h.2.1, h.2.2.1⟩

/-- C10: when EN_getpremise reports a nonzero code and leaves the
zero-initialized out-parameters untouched, get_premise panics with the
logical-operator expect message instead of returning the error, because 0
is not a valid LogicalOperator discriminant and the decode runs before
the result code is examined; under the same response get_rule panics in
its premise loop too. -/
theorem c10_get_premise_panics_on_engine_error :
    (∀ (o : RuleOracle) (ri pi c : Int),
      o.getpremise ri pi = (c, PremiseRaw.zeros) → c ≠ 0 →
      (get_premise o ri pi []).2 =
        Outcome.panicked "Invalid logical operator") ∧
    LogicalOperator.from_i32 0 = none ∧
    (∀ (o : RuleOracle) (idx c pc tc ec pr : Int) (rid : String),
      o.getruleID idx = (0, rid) → o.getrule idx = (0, pc, tc, ec, pr) →
      1 ≤ pc → o.getpremise idx 1 = (c, PremiseRaw.zeros) → c ≠ 0 →
      (get_rule o idx []).2 =
        Outcome.panicked "Invalid logical operator") := by
  refine ⟨?_, rfl, ?_⟩
  · intro o ri pi c hresp _
    simp [get_premise, callLogged, premise_outcome, hresp, PremiseRaw.zeros,
      LogicalOperator.from_i32]
  · intro o idx c pc tc ec pr rid hidresp hgr hpc hpresp _
    rw [get_rule]
    rw [hgr]
    have hx0 : get_rule_id o idx [] =
        ([EngineCall.getruleID idx], rule_id_outcome o idx) := rfl
    have hido : rule_id_outcome o idx = Outcome.ok rid := by
      simp [rule_id_outcome, hidresp]
    rw [M.bind_ok _ _ _ _ rid (by rw [hx0, hido])]
    have hx2 : callLogged (EngineCall.getrule idx)
        (if ((0 : Int), pc, tc, ec, pr).1 = 0 then Outcome.ok ()
         else Outcome.err (EPANETError.fromCode ((0 : Int), pc, tc, ec, pr).1))
        [EngineCall.getruleID idx] =
        ([EngineCall.getruleID idx, EngineCall.getrule idx],
         Outcome.ok ()) := rfl
    rw [M.bind_ok _ _ _ _ () hx2]
    have hpo : premise_outcome o idx 1 =
        Outcome.panicked "Invalid logical operator" := by
      simp [premise_outcome, hpresp, PremiseRaw.zeros,
        LogicalOperator.from_i32]
    have hmeq : ((0 : Int), pc, tc, ec, pr).2.1.toNat = (pc.toNat - 1) + 1 := by
      simp only
      omega
    rw [hmeq, fetch_clauses]
    have hf1 : get_premise o idx 1
        [EngineCall.getruleID idx, EngineCall.getrule idx] =
        ([EngineCall.getruleID idx, EngineCall.getrule idx,
          EngineCall.getpremise idx 1],
         Outcome.panicked "Invalid logical operator") := by
      rw [show get_premise o idx 1
          [EngineCall.getruleID idx, EngineCall.getrule idx] =
          ([EngineCall.getruleID idx, EngineCall.getrule idx,
            EngineCall.getpremise idx 1],
           premise_outcome o idx 1) from rfl, hpo]
    have hinner : M.bind (get_premise o idx 1)
        (fun a => M.bind (fetch_clauses (get_premise o idx) (pc.toNat - 1) (1 + 1))
          (fun rest => M.pure (a :: rest)))
        [EngineCall.getruleID idx, EngineCall.getrule idx] =
        ([EngineCall.getruleID idx, EngineCall.getrule idx,
          EngineCall.getpremise idx 1],
         Outcome.panicked "Invalid logical operator") := by
      rw [M.bind_panicked _ _ _ _ _ hf1]
    rw [M.bind_panicked _ _ _ _ _ hinner]

/-- Witness for C10 on the oracle whose premise call fails with code 258
and untouched out-parameters. -/
theorem c10_get_premise_panics_on_engine_error_witness :
    (get_premise c10Oracle 1 1 []).2 =
      Outcome.panicked "Invalid logical operator" ∧
    (get_rule c10Oracle 1 []).2 =
      Outcome.panicked "Invalid logical operator" :=
  ⟨c10_get_premise_panics_on_engine_error.1 c10Oracle 1 1 258 rfl
    (by decide),
   c10_get_premise_panics_on_engine_error.2.2 c10Oracle 1 258 1 0 0 0 "1"
    rfl rfl (by decide) rfl (by decide)⟩

/-- Counterexample to C3: the engine reports the out-of-range status
discriminant 99 in an otherwise valid premise and get_premise does not
panic: it silently maps the unrecognized discriminant to an absent
status, because the source decodes it with from_i32(out_status).or(None). -/
theorem c3_premise_status_silent_coercion_counterexample :
    RuleStatus.from_i32 99 = none ∧
    (get_premise c3Oracle 1 1 []).2 = Outcome.ok
      { logical_operator := LogicalOperator.IF,
        rule_object := RuleObject.Node,
        object_index := 5,
        var := RuleVariable.Pressure,
        rule_operator := RuleOperator.Above,
        status := none,
        value := 7 } :=
  ⟨rfl, rfl⟩

/-- C3 as amended: every decoded enumeration except a premise's optional
status fails loudly: an unrecognized discriminant for a premise's logical
operator, rule object, variable or relational operator, for a then- or
else-action's status, or for a control's type makes the wrapper panic,
while a premise's status silently maps any unrecognized discriminant
(including the none-sentinel 0) to an absent status. -/
theorem c3_amended_enum_decode_panics :
    (∀ (o : RuleOracle) (ri pi : Int),
      LogicalOperator.from_i32 ((o.getpremise ri pi).2.logop) = none →
      (get_premise o ri pi []).2 =
        Outcome.panicked "Invalid logical operator") ∧
    (∀ (o : RuleOracle) (ri pi : Int) (lop : LogicalOperator),
      LogicalOperator.from_i32 ((o.getpremise ri pi).2.logop) = some lop →
      RuleObject.from_i32 ((o.getpremise ri pi).2.object) = none →
      (get_premise o ri pi []).2 = Outcome.panicked "Invalid rule object") ∧
    (∀ (o : RuleOracle) (ri pi : Int) (lop : LogicalOperator)
      (obj : RuleObject),
      LogicalOperator.from_i32 ((o.getpremise ri pi).2.logop) = some lop →
      RuleObject.from_i32 ((o.getpremise ri pi).2.object) = some obj →
      RuleVariable.from_i32 ((o.getpremise ri pi).2.var) = none →
      (get_premise o ri pi []).2 = Outcome.panicked "Invalid rule variable") ∧
    (∀ (o : RuleOracle) (ri pi : Int) (lop : LogicalOperator)
      (obj : RuleObject) (v : RuleVariable),
      LogicalOperator.from_i32 ((o.getpremise ri pi).2.logop) = some lop →
      RuleObject.from_i32 ((o.getpremise ri pi).2.object) = some obj →
      RuleVariable.from_i32 ((o.getpremise ri pi).2.var) = some v →
      RuleOperator.from_i32 ((o.getpremise ri pi).2.relop) = none →
      (get_premise o ri pi []).2 = Outcome.panicked "Invalid rule operator") ∧
    (∀ (o : RuleOracle) (ri ai : Int),
      (o.getthenaction ri ai).1 = 0 →
      RuleStatus.from_i32 ((o.getthenaction ri ai).2.status) = none →
      (get_then_action o ri ai []).2 =
        Outcome.panicked "Invalid rule status") ∧
    (∀ (o : RuleOracle) (ri ai : Int),
      (o.getelseaction ri ai).1 = 0 →
      RuleStatus.from_i32 ((o.getelseaction ri ai).2.status) = none →
      (get_else_action o ri ai []).2 =
        Outcome.panicked "Invalid rule status") ∧
    (∀ (o : ControlReadOracle) (idx : Int),
      (o.getcontrol idx).1 = 0 → (o.getcontrolenabled idx).1 = 0 →
      ControlType.from_i32 ((o.getcontrol idx).2.1) = none →
      get_control o idx =
        Outcome.panicked "called Option::unwrap on a None value") ∧
    (∀ (o : RuleOracle) (ri pi : Int) (lop : LogicalOperator)
      (obj : RuleObject) (v : RuleVariable) (rel : RuleOperator),
      LogicalOperator.from_i32 ((o.getpremise ri pi).2.logop) = some lop →
      RuleObject.from_i32 ((o.getpremise ri pi).2.object) = some obj →
      RuleVariable.from_i32 ((o.getpremise ri pi).2.var) = some v →
      RuleOperator.from_i32 ((o.getpremise ri pi).2.relop) = some rel →
      RuleStatus.from_i32 ((o.getpremise ri pi).2.status) = none →
      (o.getpremise ri pi).1 = 0 →
      ∃ p, (get_premise o ri pi []).2 = Outcome.ok p ∧ p.status = none) := by
  refine ⟨?_, ?_, ?_, ?_, ?_, ?_, ?_, ?_⟩
  · intro o ri pi h
    simp [get_premise, callLogged, premise_outcome, h]
  · intro o ri pi lop h1 h2
    simp [get_premise, callLogged, premise_outcome, h1, h2]
  · intro o ri pi lop obj h1 h2 h3
    simp [get_premise, callLogged, premise_outcome, h1, h2, h3]
  · intro o ri pi lop obj v h1 h2 h3 h4
    simp [get_premise, callLogged, premise_outcome, h1, h2, h3, h4]
  · intro o ri ai h1 h2
    simp [get_then_action, callLogged, then_action_outcome, h1, h2]
  · intro o ri ai h1 h2
    simp [get_else_action, callLogged, else_action_outcome, h1, h2]
  · intro o idx h1 h2 h3
    simp [get_control, check_error, h1, h2, h3]
  · intro o ri pi lop obj v rel h1 h2 h3 h4 hst hcode
    refine ⟨{ logical_operator := lop, rule_object := obj,
              object_index := (o.getpremise ri pi).2.obj_index,
              var := v, rule_operator := rel, status := none,
              value := (o.getpremise ri pi).2.value }, ?_, rfl⟩
    simp [get_premise, callLogged, premise_outcome, h1, h2, h3, h4, hst,
      hcode, Option.or]

/-- Witness for the amended C3 on concrete oracles: an invalid logical
operator, an invalid then-action status and an invalid control type all
panic, and the out-of-range premise status 99 is coerced to absent. -/
theorem c3_amended_enum_decode_panics_witness :
    (get_premise c3BadLogopOracle 1 1 []).2 =
      Outcome.panicked "Invalid logical operator" ∧
    (get_then_action c3BadActionOracle 1 1 []).2 =
      Outcome.panicked "Invalid rule status" ∧
    get_control c3CtrlOracle 1 =
      Outcome.panicked "called Option::unwrap on a None value" ∧
    (∃ p, (get_premise c3Oracle 1 1 []).2 = Outcome.ok p ∧
      p.status = none) :=
  ⟨c3_amended_enum_decode_panics.1 c3BadLogopOracle 1 1 rfl,
   c3_amended_enum_decode_panics.2.2.2.2.1 c3BadActionOracle 1 1 rfl rfl,
   c3_amended_enum_decode_panics.2.2.2.2.2.2.1 c3CtrlOracle 1 rfl rfl rfl,
   c3_amended_enum_decode_panics.2.2.2.2.2.2.2 c3Oracle 1 1
     LogicalOperator.IF RuleObject.Node RuleVariable.Pressure
     RuleOperator.Above rfl rfl rfl rfl rfl rfl⟩

/-- C2 is a code bug: add_rule accepts the rule text with PRIORITY 2 and
the engine stores priority 2, get_rule reproduces the premise count,
then- and else-action counts and the premise and action fields encoded in
the text, but the returned Rule carries priority None: get_rule discards
the fetched out_priority and hardcodes None, so the priority encoded in
the text is not round-tripped. -/
theorem c2_priority_not_round_tripped :
    (add_rule net1RS priorityRuleText).2 = Except.ok () ∧
    (add_rule net1RS priorityRuleText).1.rules.map RuleData.priority = [2] ∧
    (get_rule (stateOracle (add_rule net1RS priorityRuleText).1) 1 []).2 =
      Outcome.ok c2ExpectedRule := by
  refine ⟨by decide, by decide, by decide⟩

end Epanet
